import Mathlib

/-!
# Resort back end: bookings, service orders, reviews, rooms and roles

A shallow embedding of the Express/Mongoose controllers of the resort back end
(`backend/controllers/bookingController.js`, `serviceOrderController.js`,
`reviewController.js`, `roomController.js`, `authController.js`, the middleware
of `backend/middleware/auth.js`, the routes of rooms and services, the schemas
in `backend/models/`, the slot computation of `backend/services/ServiceService.js`)
as pure functions on an explicit store.

Modelling conventions.

* A collection is a list of documents; `findById` / `findOne` return the first
  match.  Object ids are natural numbers and `Store.nextId` is the id the next
  created document receives.
* A `Date` is its time value: an integer number of milliseconds since the epoch.
  The `Number` fields (prices, quantities, guests) are integers and the ratings
  are rationals, so the arithmetic of the controllers is exact.
* A controller returns the new store together with the HTTP response.  An
  exception forwarded with `next(error)` is answered by the error handler of
  `server.js` with status 500.
* `Model.create` and `document.save()` validate the document against its
  schema, then run the `pre(save)` hook of the schema, then write.
* `createdAt` (wall-clock time) is not part of the model.
-/

namespace Resort

/-! ## Documents -/

/-- A document of the `Client` collection; the authenticated caller `req.client`
is one of them.  The password (stored hashed) is not part of the model. -/
structure Client where
  id : Nat
  role : String
  email : String := ""
  firstName : String := ""
  lastName : String := ""
  phone : String := ""
deriving DecidableEq

/-- A document of `models/Room.js` (the fields the controllers read or write). -/
structure Room where
  id : Nat
  pricePerNight : Int
  capacity : Int := 1
  rating : ℚ := 0
  numReviews : Nat := 0
  roomNumber : String := ""
  type : String := "single"
  status : String := "available"
  description : String := ""
deriving DecidableEq

/-- A document of `models/Service.js`. -/
structure Service where
  id : Nat
  price : Int
  duration : Int := 60
deriving DecidableEq

/-- A document of `models/Booking.js`. -/
structure Booking where
  id : Nat
  client : Nat
  room : Nat
  checkInDate : Int
  checkOutDate : Int
  guests : Int
  status : String := "pending"
  totalPrice : Int
  specialRequests : Option String := none
deriving DecidableEq

/-- A document of `models/ServiceOrder.js`. -/
structure ServiceOrder where
  id : Nat
  client : Nat
  service : Nat
  quantity : Int
  appointmentDate : Int
  totalPrice : Int
  status : String := "pending"
  specialRequests : Option String := none
deriving DecidableEq

/-- A document of `models/Review.js`. -/
structure Review where
  id : Nat
  client : Nat
  room : Nat
  rating : ℚ
  comment : String
deriving DecidableEq

/-- The database: one list per collection. -/
structure Store where
  rooms : List Room := []
  services : List Service := []
  bookings : List Booking := []
  serviceOrders : List ServiceOrder := []
  reviews : List Review := []
  clients : List Client := []
  nextId : Nat := 0
deriving DecidableEq

/-- The JSON answer of a controller: `res.status(status).json(...)`. -/
structure Response (α : Type) where
  status : Nat
  success : Bool
  error : Option String := none
  data : Option α := none
deriving DecidableEq

/-- The answer `res.status(code).json({ success: false, error: msg })`. -/
def Response.fail {α : Type} (code : Nat) (msg : String) : Response α :=
  { status := code, success := false, error := some msg }

/-- The answer `res.status(code).json({ success: true, data: d })`. -/
def Response.ok {α : Type} (code : Nat) (d : α) : Response α :=
  { status := code, success := true, data := some d }

/-- The answer of the error handler of `server.js` to `next(error)`. -/
def Response.thrown {α : Type} (msg : String) : Response α :=
  { status := 500, success := false, error := some msg }

/-! ## Collections -/

/-- The query `Room.findById(id)`. -/
def findRoom (s : Store) (id : Nat) : Option Room :=
  s.rooms.find? (fun r => r.id == id)

/-- The query `Service.findById(id)`. -/
def findService (s : Store) (id : Nat) : Option Service :=
  s.services.find? (fun x => x.id == id)

/-- The query `Booking.findById(id)`. -/
def findBooking (s : Store) (id : Nat) : Option Booking :=
  s.bookings.find? (fun b => b.id == id)

/-- The query `ServiceOrder.findById(id)`. -/
def findServiceOrder (s : Store) (id : Nat) : Option ServiceOrder :=
  s.serviceOrders.find? (fun o => o.id == id)

/-- Writing back the document with a given id: the first document with that id
is replaced, the rest of the collection is untouched. -/
def replaceFirst {α : Type} (key : α → Nat) (d : α) : List α → List α
  | [] => []
  | x :: xs => if key x = key d then d :: xs else x :: replaceFirst key d xs

/-! ## Booking: schema validation, pre-save hook, controller -/

/-- The milliseconds of one day, `1000 * 60 * 60 * 24`. -/
def msPerDay : Int := 1000 * 60 * 60 * 24

/-- The number of nights `Math.ceil((checkOut - checkIn) / (1000 * 60 * 60 * 24))`,
computed as the ceiling of an integer quotient (`nights_eq_ceil` relates it to
the ceiling of the exact rational quotient). -/
def nights (checkIn checkOut : Int) : Int :=
  -((-(checkOut - checkIn)) / msPerDay)

/-- The price lines of `createBooking`:
`nights = Math.ceil((checkOut - checkIn) / msPerDay)`,
`totalPrice = nights * room.pricePerNight`. -/
def stayPrice (pricePerNight checkIn checkOut : Int) : Int :=
  nights checkIn checkOut * pricePerNight

/-- The status values admitted by the `enum` of `BookingSchema.status`. -/
def bookingStatusEnum : List String := ["pending", "confirmed", "cancelled"]

/-- The `maxlength` validator of an optional string path: an absent value passes. -/
def exceedsMaxLength (n : Nat) : Option String → Bool
  | some t => decide (n < t.length)
  | none => false

/-- The validators of `BookingSchema`, which `Booking.create` and
`booking.save()` run on the document: `guests` has `min: 1`, `status` has the
enum, `specialRequests` has `maxlength: 500` (the `required` paths are always
present in a `Booking`).  The result is the message of the first failing
validator. -/
def validateBooking (b : Booking) : Option String :=
  if b.guests < 1 then
    some "Number of guests must be at least 1"
  else if b.status ∉ bookingStatusEnum then
    some "status is not a valid enum value"
  else if exceedsMaxLength 500 b.specialRequests then
    some "Special requests cannot be more than 500 characters"
  else none

/-- The hook `BookingSchema.pre(save)`, given the modified paths of the document:
unless neither date is modified, the total price is recomputed from the room of
the booking. -/
def bookingPreSave (s : Store) (b : Booking) (paths : List String) :
    Except String Booking :=
  if "checkInDate" ∉ paths ∧ "checkOutDate" ∉ paths then .ok b
  else
    match findRoom s b.room with
    | none => .error "Cannot read properties of null"
    | some room =>
      .ok { b with totalPrice := room.pricePerNight * nights b.checkInDate b.checkOutDate }

/-- All paths of a booking: what a newly created document has modified. -/
def bookingPaths : List String :=
  ["client", "room", "checkInDate", "checkOutDate", "guests", "status", "totalPrice"]

/-- The body of `POST /api/bookings`.  The controller reads `checkInDate`,
`checkOutDate`, `guests` and `roomId`; the other fields may be sent but are
never read. -/
structure CreateBookingRequest where
  roomId : Nat
  checkInDate : Int
  checkOutDate : Int
  guests : Int
  status : Option String := none
  totalPrice : Option Int := none
  client : Option Nat := none
deriving DecidableEq

/-- The filter of the conflict query of `createBooking`: same room, status
`confirmed` or `pending`, `checkInDate <= new checkOut` and
`checkOutDate >= new checkIn`. -/
def conflictsWith (roomId : Nat) (checkIn checkOut : Int) (b : Booking) : Bool :=
  b.room == roomId &&
    (decide (b.checkInDate ≤ checkOut) && decide (b.checkOutDate ≥ checkIn)) &&
    decide (b.status ∈ ["confirmed", "pending"])

/-- The text of the availability error. -/
def roomUnavailable : String := "Room is not available for the selected dates"

/-- The controller `createBooking`. -/
def createBooking (s : Store) (caller : Client) (req : CreateBookingRequest) :
    Store × Response Booking :=
  match findRoom s req.roomId with
  | none => (s, Response.fail 404 "Room not found")
  | some room =>
    match s.bookings.find? (conflictsWith req.roomId req.checkInDate req.checkOutDate) with
    | some _ => (s, Response.fail 400 roomUnavailable)
    | none =>
      let totalPrice := stayPrice room.pricePerNight req.checkInDate req.checkOutDate
      let doc : Booking :=
        { id := s.nextId, client := caller.id, room := req.roomId,
          checkInDate := req.checkInDate, checkOutDate := req.checkOutDate,
          guests := req.guests, status := "pending", totalPrice := totalPrice }
      match validateBooking doc with
      | some msg => (s, Response.thrown msg)
      | none =>
        match bookingPreSave s doc bookingPaths with
        | .error msg => (s, Response.thrown msg)
        | .ok saved =>
          ({ s with bookings := s.bookings ++ [saved], nextId := s.nextId + 1 },
            Response.ok 201 saved)

/-- The controller `updateBookingStatus`. -/
def updateBookingStatus (s : Store) (caller : Client) (id : Nat) (status : String) :
    Store × Response Booking :=
  match findBooking s id with
  | none => (s, Response.fail 404 "Booking not found")
  | some booking =>
    if caller.role ≠ "admin" ∧ booking.client ≠ caller.id then
      (s, Response.fail 401 "Not authorized to update this booking")
    else if status = "confirmed" ∧ caller.role ≠ "admin" then
      (s, Response.fail 401 "Only admin can confirm bookings")
    else
      let doc : Booking := { booking with status := status }
      match validateBooking doc with
      | some msg => (s, Response.thrown msg)
      | none =>
        match bookingPreSave s doc ["status"] with
        | .error msg => (s, Response.thrown msg)
        | .ok saved =>
          ({ s with bookings := replaceFirst Booking.id saved s.bookings },
            Response.ok 200 saved)

/-! ## Service order: schema validation, pre-save hook, controllers -/

/-- The status values admitted by the `enum` of `ServiceOrderSchema.status`. -/
def serviceOrderStatusEnum : List String := ["pending", "confirmed", "completed", "cancelled"]

/-- The validators of `ServiceOrderSchema`, which `ServiceOrder.create` and
`serviceOrder.save()` run on the document: `quantity` has `min: 1`, `status`
has the enum, `specialRequests` has `maxlength: 500`.  The result is the
message of the first failing validator. -/
def validateServiceOrder (o : ServiceOrder) : Option String :=
  if o.quantity < 1 then
    some "Quantity must be at least 1"
  else if o.status ∉ serviceOrderStatusEnum then
    some "status is not a valid enum value"
  else if exceedsMaxLength 500 o.specialRequests then
    some "Special requests cannot be more than 500 characters"
  else none

/-- The hook `ServiceOrderSchema.pre(save)`, given the modified paths of the
document: when the quantity is modified, the total price is recomputed from the
service of the order. -/
def serviceOrderPreSave (s : Store) (o : ServiceOrder) (paths : List String) :
    Except String ServiceOrder :=
  if "quantity" ∉ paths then .ok o
  else
    match findService s o.service with
    | none => .error "Cannot read properties of null"
    | some service => .ok { o with totalPrice := service.price * o.quantity }

/-- All paths of a service order: what a newly created document has modified. -/
def serviceOrderPaths : List String :=
  ["client", "service", "quantity", "appointmentDate", "totalPrice", "status",
    "specialRequests"]

/-- The body of `POST /api/service-orders`.  The controller reads `serviceId`,
`appointmentDate`, `quantity` and `specialRequests`; the other fields may be
sent but are never read. -/
structure CreateServiceOrderRequest where
  serviceId : Nat
  appointmentDate : Int
  quantity : Int
  specialRequests : Option String := none
  status : Option String := none
  totalPrice : Option Int := none
  client : Option Nat := none
deriving DecidableEq

/-- The controller `createServiceOrder`. -/
def createServiceOrder (s : Store) (caller : Client) (req : CreateServiceOrderRequest) :
    Store × Response ServiceOrder :=
  match findService s req.serviceId with
  | none => (s, Response.fail 404 "Service not found")
  | some service =>
    let totalPrice := service.price * req.quantity
    let doc : ServiceOrder :=
      { id := s.nextId, service := req.serviceId, client := caller.id,
        appointmentDate := req.appointmentDate, quantity := req.quantity,
        totalPrice := totalPrice, specialRequests := req.specialRequests,
        status := "pending" }
    match validateServiceOrder doc with
    | some msg => (s, Response.thrown msg)
    | none =>
      match serviceOrderPreSave s doc serviceOrderPaths with
      | .error msg => (s, Response.thrown msg)
      | .ok saved =>
        ({ s with serviceOrders := s.serviceOrders ++ [saved], nextId := s.nextId + 1 },
          Response.ok 201 saved)

/-- The controller `updateServiceOrderStatus`. -/
def updateServiceOrderStatus (s : Store) (caller : Client) (id : Nat) (status : String) :
    Store × Response ServiceOrder :=
  match findServiceOrder s id with
  | none => (s, Response.fail 404 "Service order not found")
  | some serviceOrder =>
    if caller.role ≠ "admin" ∧ serviceOrder.client ≠ caller.id then
      (s, Response.fail 401 "Not authorized to update this service order")
    else if status = "confirmed" ∧ caller.role ≠ "admin" then
      (s, Response.fail 401 "Only admin can confirm service orders")
    else
      let doc : ServiceOrder := { serviceOrder with status := status }
      match validateServiceOrder doc with
      | some msg => (s, Response.thrown msg)
      | none =>
        match serviceOrderPreSave s doc ["status"] with
        | .error msg => (s, Response.thrown msg)
        | .ok saved =>
          ({ s with serviceOrders := replaceFirst ServiceOrder.id saved s.serviceOrders },
            Response.ok 200 saved)

/-! ## Deleting bookings and service orders -/

/-- The effect of `doc.deleteOne()`: the first document with the given id is
removed, the rest of the collection is untouched. -/
def removeFirst {α : Type} (key : α → Nat) (id : Nat) : List α → List α
  | [] => []
  | x :: xs => if key x = id then xs else x :: removeFirst key id xs

/-- The controller `deleteBooking`. -/
def deleteBooking (s : Store) (caller : Client) (id : Nat) : Store × Response Unit :=
  match findBooking s id with
  | none => (s, Response.fail 404 "Booking not found")
  | some booking =>
    if caller.role ≠ "admin" ∧ booking.client ≠ caller.id then
      (s, Response.fail 401 "Not authorized to delete this booking")
    else
      ({ s with bookings := removeFirst Booking.id booking.id s.bookings },
        Response.ok 200 ())

/-- The controller `deleteServiceOrder`. -/
def deleteServiceOrder (s : Store) (caller : Client) (id : Nat) : Store × Response Unit :=
  match findServiceOrder s id with
  | none => (s, Response.fail 404 "Service order not found")
  | some serviceOrder =>
    if caller.role ≠ "admin" ∧ serviceOrder.client ≠ caller.id then
      (s, Response.fail 401 "Not authorized to delete this service order")
    else
      ({ s with serviceOrders := removeFirst ServiceOrder.id serviceOrder.id s.serviceOrders },
        Response.ok 200 ())

/-! ## Reviews: schema, rating recomputation, controllers -/

/-- The query `Review.findById(id)`. -/
def findReview (s : Store) (id : Nat) : Option Review :=
  s.reviews.find? (fun r => r.id == id)

/-- The query `Review.find(room: roomId)`: all reviews of a room. -/
def reviewsOf (s : Store) (roomId : Nat) : List Review :=
  s.reviews.filter (fun r => r.room == roomId)

/-- The binary exponent of a number `x` other than 0: the `e` with
`2 ^ e <= |x| < 2 ^ (e + 1)`, found from the bit lengths of numerator and
denominator. -/
def binaryExponent (x : ℚ) : Int :=
  let e0 : Int := (Nat.log2 x.num.natAbs : Int) - (Nat.log2 x.den : Int)
  if |x| < (2 : ℚ) ^ e0 then e0 - 1 else e0

/-- The nearest integer, a tie going to the even one: the rounding of IEEE 754
arithmetic. -/
def roundHalfEven (y : ℚ) : Int :=
  let f := ⌊y⌋
  if y - f < 1 / 2 then f
  else if 1 / 2 < y - f then f + 1
  else if f % 2 = 0 then f else f + 1

/-- The binary double nearest to `x`, as its exact value: `x` is rounded to 53
significant bits, a tie going to the even significand.  This is the result that
a division of two doubles with the exact quotient `x` has in JavaScript (the
range of the exponent is not limited: no overflow, no subnormal numbers). -/
def toDouble (x : ℚ) : ℚ :=
  if x = 0 then 0
  else
    let ulp : ℚ := (2 : ℚ) ^ (binaryExponent x - 52)
    (roundHalfEven (x / ulp) : ℚ) * ulp

/-- The value of `x.toFixed(1)` read back as a number (the schema of `Room` casts
the string), for a double `x` given by its exact value: the multiple of one
tenth nearest to `x`, the larger of the two at a tie, the sign being set aside
first.  The controller applies it to a double, see `updateRoomRating`. -/
def toFixed1 (x : ℚ) : ℚ :=
  if x < 0 then -((⌊(-x) * 10 + 1 / 2⌋ : Int) : ℚ) / 10
  else ((⌊x * 10 + 1 / 2⌋ : Int) : ℚ) / 10

/-- The effect of `Model.findByIdAndUpdate(id, fields)` on a collection: the first
document with the given id is changed by `f`; without such a document nothing
happens. -/
def modifyFirst {α : Type} (key : α → Nat) (id : Nat) (f : α → α) : List α → List α
  | [] => []
  | x :: xs => if key x = id then f x :: xs else x :: modifyFirst key id f xs

/-- The running sum `reviews.reduce((sum, review) => sum + review.rating, 0)` as
the addition of doubles computes it: every partial sum is rounded to a double.
For whole ratings it is the exact sum, see `doubleSum_exact`. -/
def doubleSum (rs : List Review) (init : ℚ) : ℚ :=
  rs.foldl (fun sum review => toDouble (sum + review.rating)) init

/-- The helper `updateRoomRating(roomId)` of `reviewController.js`.  The sum of
the ratings is taken exact: the addition of doubles is exact for the whole
ratings 1 to 5 that the review form sends, as long as the sum stays below
`2 ^ 53` (`doubleSum_exact`).  The quotient `totalRating / reviews.length` is
the double nearest to the exact quotient, and `toFixed(1)` acts on that
double. -/
def updateRoomRating (s : Store) (roomId : Nat) : Store :=
  let reviews := reviewsOf s roomId
  if reviews.length = 0 then
    { s with
      rooms :=
        modifyFirst Room.id roomId (fun room => { room with rating := 0, numReviews := 0 })
          s.rooms }
  else
    let totalRating : ℚ := reviews.foldl (fun sum review => sum + review.rating) 0
    let avgRating : ℚ := toDouble (totalRating / reviews.length)
    { s with
      rooms :=
        modifyFirst Room.id roomId
          (fun room => { room with rating := toFixed1 avgRating, numReviews := reviews.length })
          s.rooms }

/-- The white space that `String.prototype.trim` removes. -/
def isTrimmed (c : Char) : Bool :=
  c.toNat ∈ [9, 10, 11, 12, 13, 32, 160, 5760, 8192, 8193, 8194, 8195, 8196, 8197, 8198,
    8199, 8200, 8201, 8202, 8232, 8233, 8239, 8287, 12288, 65279]

/-- The setter `trim: true` of a string path. -/
def trimString (t : String) : String :=
  String.mk ((t.data.dropWhile isTrimmed).reverse.dropWhile isTrimmed).reverse

/-- The validators of `reviewSchema` on the rating and the comment, run by
`Review.create` and, with `runValidators: true`, by `findByIdAndUpdate`:
`rating` has `min: 1` and `max: 5`, the trimmed `comment` is `required` and so
must not be empty.  The result is the message of the first failing validator. -/
def validateReview (rating : ℚ) (comment : String) : Option String :=
  if rating < 1 then some "rating is less than minimum allowed value (1)"
  else if 5 < rating then some "rating is more than maximum allowed value (5)"
  else if comment = "" then some "comment is required"
  else none

/-- The body of `POST /api/reviews`. -/
structure CreateReviewRequest where
  roomId : Nat
  rating : ℚ
  comment : String
deriving DecidableEq

/-- The body of `PUT /api/reviews/:id`. -/
structure UpdateReviewRequest where
  rating : ℚ
  comment : String
deriving DecidableEq

/-- The insertion of a review under the unique index on `(client, room)`: a
second review of the same pair is refused with a duplicate key error. -/
def insertReview (s : Store) (doc : Review) : Except String Store :=
  match s.reviews.find? (fun r => r.client == doc.client && r.room == doc.room) with
  | some _ => .error "E11000 duplicate key error"
  | none => .ok { s with reviews := s.reviews ++ [doc], nextId := s.nextId + 1 }

/-- The controller `createReview`. -/
def createReview (s : Store) (caller : Client) (req : CreateReviewRequest) :
    Store × Response Review :=
  match findRoom s req.roomId with
  | none => (s, Response.fail 404 "Room not found")
  | some _ =>
    match s.reviews.find? (fun r => r.client == caller.id && r.room == req.roomId) with
    | some _ => (s, Response.fail 400 "You have already reviewed this room")
    | none =>
      let doc : Review :=
        { id := s.nextId, rating := req.rating, comment := trimString req.comment,
          room := req.roomId, client := caller.id }
      match validateReview doc.rating doc.comment with
      | some msg => (s, Response.thrown msg)
      | none =>
        match insertReview s doc with
        | .error msg => (s, Response.thrown msg)
        | .ok s1 => (updateRoomRating s1 req.roomId, Response.ok 201 doc)

/-- The controller `updateReview`. -/
def updateReview (s : Store) (caller : Client) (id : Nat) (req : UpdateReviewRequest) :
    Store × Response Review :=
  match findReview s id with
  | none => (s, Response.fail 404 "Review not found")
  | some review =>
    if review.client ≠ caller.id then
      (s, Response.fail 401 "Not authorized to update this review")
    else
      match validateReview req.rating (trimString req.comment) with
      | some msg => (s, Response.thrown msg)
      | none =>
        let updated : Review :=
          { review with rating := req.rating, comment := trimString req.comment }
        let s1 : Store := { s with reviews := replaceFirst Review.id updated s.reviews }
        (updateRoomRating s1 updated.room, Response.ok 200 updated)

/-- The controller `deleteReview`. -/
def deleteReview (s : Store) (caller : Client) (id : Nat) : Store × Response Unit :=
  match findReview s id with
  | none => (s, Response.fail 404 "Review not found")
  | some review =>
    if review.client ≠ caller.id ∧ caller.role ≠ "admin" then
      (s, Response.fail 401 "Not authorized to delete this review")
    else
      let roomId := review.room
      let s1 : Store := { s with reviews := removeFirst Review.id review.id s.reviews }
      (updateRoomRating s1 roomId, Response.ok 200 ())

/-! ## The aggregate rating: the mean, its rounding, the rule of the code -/

/-- The arithmetic mean of the ratings of a list of reviews. -/
def meanRating (rs : List Review) : ℚ :=
  (rs.map Review.rating).sum / rs.length

/-- The rounding to one decimal place of the specification: the nearest
multiple of one tenth, a tie going away from zero. -/
def roundOneDecimal (x : ℚ) : ℚ :=
  if x < 0 then -((⌊(-x) * 10 + 1 / 2⌋ : Int) : ℚ) / 10
  else ((⌊x * 10 + 1 / 2⌋ : Int) : ℚ) / 10

/-- The rating rule that the code keeps, for the room `roomId` of a store with at
least one review of that room: the rating of the room is `toFixed(1)` of the
double nearest to the mean of the ratings of all its reviews; it is a multiple
of one tenth at distance at most one twentieth from that double, hence from the
mean up to the relative error `2 ^ -53` of the double; and `numReviews` is the
number of those reviews. -/
def RatingMatches (s : Store) (roomId : Nat) : Prop :=
  ∀ room, findRoom s roomId = some room → reviewsOf s roomId ≠ [] →
    room.rating = toFixed1 (toDouble (meanRating (reviewsOf s roomId))) ∧
      (∃ n : Int, room.rating = (n : ℚ) / 10) ∧
      |room.rating - toDouble (meanRating (reviewsOf s roomId))| ≤ 1 / 20 ∧
      |room.rating - meanRating (reviewsOf s roomId)| ≤
        1 / 20 + |meanRating (reviewsOf s roomId)| / 2 ^ 53 ∧
      room.numReviews = (reviewsOf s roomId).length

/-- The rating that `updateRoomRating` writes to the room: 0 without reviews,
else the mean of the ratings, as a double, through `toFixed(1)`. -/
def newRating (s : Store) (roomId : Nat) : ℚ :=
  if (reviewsOf s roomId).length = 0 then 0
  else toFixed1 (toDouble
    ((reviewsOf s roomId).foldl (fun sum review => sum + review.rating) 0 /
      (reviewsOf s roomId).length))

/-! ## Sequences of review calls and the uniqueness invariant -/

/-- A call of one of the three controllers that write reviews. -/
inductive ReviewCall where
  | create (caller : Client) (req : CreateReviewRequest)
  | update (caller : Client) (id : Nat) (req : UpdateReviewRequest)
  | delete (caller : Client) (id : Nat)

/-- The store after one call. -/
def ReviewCall.run (s : Store) : ReviewCall → Store
  | .create caller req => (createReview s caller req).1
  | .update caller id req => (updateReview s caller id req).1
  | .delete caller id => (deleteReview s caller id).1

/-- The store after a sequence of calls, run one after the other. -/
def runCalls (s : Store) (calls : List ReviewCall) : Store :=
  calls.foldl ReviewCall.run s

/-- The uniqueness invariant: no two reviews of the store have the same
`(client, room)` pair. -/
def UniqueReviews (s : Store) : Prop :=
  (s.reviews.map (fun r => (r.client, r.room))).Nodup

/-! ## Registration and the role gates -/

/-- The test `t.endsWith(suffix)` of JavaScript strings. -/
def endsWith (t suffix : String) : Bool :=
  suffix.data.isSuffixOf t.data

/-- The body of `POST /api/auth/register`.  The controller reads `firstName`,
`lastName`, `email`, `phone` and `password`; a `role` may be sent but is never
read. -/
structure RegisterRequest where
  firstName : String
  lastName : String
  email : String
  phone : String
  password : String
  role : Option String := none
deriving DecidableEq

/-- The role lines of `register`: `admin` for the first user or an email ending
in `@admin.com`, else `staff` for an email ending in `@staff.com`, else `user`. -/
def assignRole (isFirstUser : Bool) (email : String) : String :=
  let isAdminEmail := endsWith email "@admin.com"
  let isStaffEmail := endsWith email "@staff.com"
  if isFirstUser || isAdminEmail then "admin"
  else if isStaffEmail then "staff"
  else "user"

/-- The controller `register` of `authController.js`.  The schema of `Client` is
not among the sources: its validators, which see the document handed to
`Client.create` and the password, are the parameter `clientSchema` (the message
of a failing validator, or `none`).  The token of the answer is not modelled. -/
def register (clientSchema : Client → String → Option String) (s : Store)
    (req : RegisterRequest) : Store × Response Client :=
  match s.clients.find? (fun c => c.email == req.email) with
  | some _ => (s, Response.fail 400 "Email already registered")
  | none =>
    let isFirstUser := decide (s.clients.length = 0)
    let role := assignRole isFirstUser req.email
    let doc : Client :=
      { id := s.nextId, firstName := req.firstName, lastName := req.lastName,
        email := req.email, phone := req.phone, role := role }
    match clientSchema doc req.password with
    | some msg => (s, Response.thrown msg)
    | none =>
      ({ s with clients := s.clients ++ [doc], nextId := s.nextId + 1 }, Response.ok 201 doc)

/-- The outcome of a middleware: it calls `next()` or it answers itself. -/
inductive Gate where
  | next
  | answered (r : Response Unit)
deriving DecidableEq

/-- The middleware `isAdmin` on `req.client`, which is absent when `protect`
found no client. -/
def isAdmin (client : Option Client) : Gate :=
  if (match client with
      | some c => c.role == "admin"
      | none => false) then Gate.next
  else Gate.answered (Response.fail 403 "Access denied: Admin rights required")

/-- The middleware `isStaff`. -/
def isStaff (client : Option Client) : Gate :=
  if (match client with
      | some c => c.role == "staff"
      | none => false) then Gate.next
  else Gate.answered (Response.fail 403 "Access denied: Staff rights required")

/-- The middleware `isAdminOrStaff`. -/
def isAdminOrStaff (client : Option Client) : Gate :=
  if (match client with
      | some c => c.role == "admin" || c.role == "staff"
      | none => false) then Gate.next
  else Gate.answered (Response.fail 403 "Access denied: Admin or staff rights required")

/-! ## Routes of rooms and services -/

/-- The query `Client.findById(id)`. -/
def findClient (s : Store) (id : Nat) : Option Client :=
  s.clients.find? (fun c => c.id == id)

/-- The middleware `protect`.  The bearer token and its verification are not
modelled: `auth` is the client id inside a token that verifies, and `none` when
the token is missing or does not verify.  The result is the answer 401 or the
value of `req.client`, which is absent when the client no longer exists. -/
def protect (s : Store) (auth : Option Nat) : Except (Response Unit) (Option Client) :=
  match auth with
  | none => .error (Response.fail 401 "Not authorized to access this route")
  | some id => .ok (findClient s id)

/-- The controllers behind the guarded routes of `routes/rooms.js` and
`routes/services.js`. -/
inductive Handler where
  | createRoom
  | updateRoom
  | deleteRoom
  | createService
  | updateService
  | deleteService
deriving DecidableEq

/-- The role middleware that each route puts between `protect` and its
controller: `post` and `delete` use `isAdmin`, `put` uses `isAdminOrStaff`. -/
def routeGate : Handler → Option Client → Gate
  | .createRoom => isAdmin
  | .updateRoom => isAdminOrStaff
  | .deleteRoom => isAdmin
  | .createService => isAdmin
  | .updateService => isAdminOrStaff
  | .deleteService => isAdmin

/-- The middleware chain of a guarded route: `Gate.next` means that the
controller runs, `Gate.answered r` that a middleware answered `r` before it. -/
def enterRoute (s : Store) (auth : Option Nat) (h : Handler) : Gate :=
  match protect s auth with
  | .error r => Gate.answered r
  | .ok client => routeGate h client

/-! ## Updating a room -/

/-- The body of `PUT /api/rooms/:id`: any subset of the paths of a room.  The
value of `numReviews` is taken to be a natural number. -/
structure UpdateRoomRequest where
  roomNumber : Option String := none
  type : Option String := none
  pricePerNight : Option Int := none
  capacity : Option Int := none
  status : Option String := none
  description : Option String := none
  rating : Option ℚ := none
  numReviews : Option Nat := none
deriving DecidableEq

/-- The messages of the validators of `RoomSchema` that fail on the paths of the
body (`runValidators: true`): `roomNumber` (trimmed) and `description` are
required, `type` and `status` have an enum, `capacity` has `min: 1` and
`max: 10`, `description` has `maxlength: 500`.  The paths `rating` and
`numReviews` have no validator. -/
def roomUpdateErrors (body : UpdateRoomRequest) : List String :=
  (match body.roomNumber with
    | some n => if trimString n = "" then ["Please add a room number"] else []
    | none => []) ++
  (match body.type with
    | some ty => if ty ∈ ["single", "double", "luxury"] then [] else ["type is not a valid enum value"]
    | none => []) ++
  (match body.capacity with
    | some c =>
      if c < 1 then ["Capacity must be at least 1"]
      else if 10 < c then ["Capacity cannot be more than 10"]
      else []
    | none => []) ++
  (match body.status with
    | some st =>
      if st ∈ ["available", "booked", "maintenance"] then []
      else ["status is not a valid enum value"]
    | none => []) ++
  (match body.description with
    | some d =>
      if d = "" then ["Please add a description"]
      else if 500 < d.length then ["Description cannot be more than 500 characters"]
      else []
    | none => [])

/-- The document after `$set` of the body: every path of the body replaces the
stored value, the other paths stay. -/
def applyRoomUpdate (body : UpdateRoomRequest) (room : Room) : Room :=
  { room with
    roomNumber := (body.roomNumber.map trimString).getD room.roomNumber,
    type := body.type.getD room.type,
    pricePerNight := body.pricePerNight.getD room.pricePerNight,
    capacity := body.capacity.getD room.capacity,
    status := body.status.getD room.status,
    description := body.description.getD room.description,
    rating := body.rating.getD room.rating,
    numReviews := body.numReviews.getD room.numReviews }

/-- The controller `updateRoom`: `Room.findByIdAndUpdate(id, req.body)` with the
validators on, behind the answers of its `catch` block (a duplicate room number
under the unique index, a validation error). -/
def updateRoom (s : Store) (id : Nat) (body : UpdateRoomRequest) : Store × Response Room :=
  match findRoom s id with
  | none => (s, Response.fail 404 "Room not found.")
  | some room =>
    match roomUpdateErrors body with
    | msg :: msgs => (s, Response.fail 400 (". ".intercalate (msg :: msgs)))
    | [] =>
      let updated := applyRoomUpdate body room
      if body.roomNumber.isSome ∧
          s.rooms.any (fun r => r.id != id && r.roomNumber == updated.roomNumber) then
        (s, Response.fail 400
          "A room with this number already exists. Please choose another room number.")
      else
        ({ s with rooms := modifyFirst Room.id id (applyRoomUpdate body) s.rooms },
          Response.ok 200 updated)

/-! ## Listing bookings -/

/-- The query string of `GET /api/bookings` after `parseInt`: `none` stands for
`NaN` (a missing or non-numeric parameter). -/
structure PageQuery where
  page : Option Int := none
  limit : Option Int := none
deriving DecidableEq

/-- The JSON answer of `getBookings`: the total, the pagination links (each a
page number and a limit) and the bookings of the page. -/
structure BookingPage where
  count : Nat
  next : Option (Int × Int) := none
  prev : Option (Int × Int) := none
  data : List Booking
deriving DecidableEq

/-- The value `parseInt(x, 10) || d`: the default replaces `NaN` and 0. -/
def parsedOr (x : Option Int) (d : Int) : Int :=
  match x with
  | some v => if v = 0 then d else v
  | none => d

/-- The controller `getBookings`.  A negative `skip` is refused by the database
and the error goes to `next`; a negative `limit` is read by the database as its
absolute value.  The populated room of each booking is not modelled. -/
def getBookings (s : Store) (caller : Client) (q : PageQuery) : Response BookingPage :=
  let found : List Booking :=
    if caller.role ≠ "admin" then s.bookings.filter (fun b => b.client == caller.id)
    else s.bookings
  let page := parsedOr q.page 1
  let limit := parsedOr q.limit 10
  let startIndex := (page - 1) * limit
  let endIndex := page * limit
  let total : Nat :=
    if caller.role ≠ "admin" then (s.bookings.filter (fun b => b.client == caller.id)).length
    else s.bookings.length
  if startIndex < 0 then Response.thrown "Skip value must be non-negative"
  else
    let bookings := (found.drop startIndex.toNat).take limit.natAbs
    Response.ok 200
      { count := total,
        next := if endIndex < total then some (page + 1, limit) else none,
        prev := if startIndex > 0 then some (page - 1, limit) else none,
        data := bookings }

/-! ## Available slots of a service -/

/-- An order as `calculateAvailableSlots` reads it: its `date`, in milliseconds. -/
structure ScheduledOrder where
  date : Int
deriving DecidableEq

/-- A slot pushed by `calculateAvailableSlots`: its `start` and its end
`slotEnd`, in milliseconds. -/
structure Slot where
  start : Int
  slotEnd : Int
deriving DecidableEq

/-- The test inside `orders.some` of `calculateAvailableSlots`: the start of the
slot lies in the order, or the end of the slot lies in the order. -/
def slotTaken (duration currentTime : Int) (order : ScheduledOrder) : Bool :=
  let slotEnd := currentTime + duration * 60000
  let orderStart := order.date
  let orderEnd := orderStart + duration * 60000
  (decide (currentTime ≥ orderStart) && decide (currentTime < orderEnd)) ||
    (decide (slotEnd > orderStart) && decide (slotEnd ≤ orderEnd))

/-- The `while` loop of `calculateAvailableSlots` from the state `slots`,
`currentTime`: it stops when `currentTime < endTime` fails and advances by 30
minutes. -/
def slotsLoop (duration : Int) (orders : List ScheduledOrder) (endTime : Int)
    (slots : List Slot) (currentTime : Int) : List Slot :=
  if currentTime < endTime then
    let slotEnd := currentTime + duration * 60000
    let isSlotAvailable := !orders.any (slotTaken duration currentTime)
    slotsLoop duration orders endTime
      (if isSlotAvailable then slots ++ [{ start := currentTime, slotEnd := slotEnd }] else slots)
      (currentTime + 30 * 60000)
  else slots
termination_by (endTime - currentTime).toNat
decreasing_by omega

/-- The method `calculateAvailableSlots(service, orders, date)` of
`ServiceService.js`.  The day is given by `midnight`, the local midnight of
`date` in milliseconds: `setHours(9, 0, 0, 0)` and `setHours(18, 0, 0, 0)` are
9 and 18 hours after it (no change of the clock during the working day). -/
def calculateAvailableSlots (service : Service) (orders : List ScheduledOrder)
    (midnight : Int) : List Slot :=
  let startTime := midnight + 9 * 3600000
  let endTime := midnight + 18 * 3600000
  slotsLoop service.duration orders endTime [] startTime

/-! ## The available slots in the words of the specification -/

/-- The candidate starts `09:00 + 30k` minutes for `k = 0..17`. -/
def candidateStarts (midnight : Int) : List Int :=
  (List.range 18).map (fun k : Nat => midnight + 9 * 3600000 + 30 * 60000 * (k : Int))

/-- The half-open intervals `[start, start + d)` of a slot and
`[order.date, order.date + d)` of an order overlap. -/
def overlapsOrder (d start : Int) (order : ScheduledOrder) : Prop :=
  start < order.date + d ∧ order.date < start + d

/-- The slots of the specification: the candidates, in ascending order, whose
interval overlaps the interval of no order. -/
def freeSlots (service : Service) (orders : List ScheduledOrder) (midnight : Int) :
    List Slot :=
  ((candidateStarts midnight).filter
    (fun start => decide (∀ o ∈ orders,
      ¬ (start < o.date + service.duration * 60000 ∧
        o.date < start + service.duration * 60000)))).map
    (fun start => { start := start, slotEnd := start + service.duration * 60000 })

/-! ## The availability rule in the words of the specification -/

/-- The condition of the availability rule as the specification words it: the
store holds a booking for the same room whose status is pending or confirmed
and with `existing.checkInDate <= requested checkOutDate` and
`existing.checkOutDate >= requested checkInDate`. -/
def HasConflict (s : Store) (roomId : Nat) (checkIn checkOut : Int) : Prop :=
  ∃ b ∈ s.bookings, b.room = roomId ∧ (b.status = "pending" ∨ b.status = "confirmed") ∧
    b.checkInDate ≤ checkOut ∧ b.checkOutDate ≥ checkIn

/-! ## Concrete data of the scenarios -/

/-- Room R of the scenarios: nightly rate 100. -/
def roomR : Room := { id := 1, pricePerNight := 100 }

/-- Booking A of the scenarios: room R, 2024-07-01 to 2024-07-05, pending. -/
def bookingA : Booking :=
  { id := 10, client := 5, room := 1, checkInDate := 1719792000000,
    checkOutDate := 1720137600000, guests := 2, status := "pending", totalPrice := 400 }

/-- A store with room R and no booking. -/
def storeR : Store := { rooms := [roomR], nextId := 11 }

/-- A store with room R and booking A. -/
def storeA : Store := { rooms := [roomR], bookings := [bookingA], nextId := 11 }

/-- A caller with role `user` who does not own booking A. -/
def guestCaller : Client := { id := 7, role := "user" }

/-- A request for room R, 2024-06-01 to 2024-06-04, two guests. -/
def reqJune : CreateBookingRequest :=
  { roomId := 1, checkInDate := 1717200000000, checkOutDate := 1717459200000, guests := 2 }

/-- The June request with a guest count of zero. -/
def reqNoGuests : CreateBookingRequest :=
  { roomId := 1, checkInDate := 1717200000000, checkOutDate := 1717459200000, guests := 0 }

/-- Request B of the scenarios: room R, 2024-07-03 to 2024-07-06. -/
def reqOverlap : CreateBookingRequest :=
  { roomId := 1, checkInDate := 1719964800000, checkOutDate := 1720224000000, guests := 2 }

/-- The touching request of the scenarios: room R, 2024-07-05 to 2024-07-08. -/
def reqTouch : CreateBookingRequest :=
  { roomId := 1, checkInDate := 1720137600000, checkOutDate := 1720396800000, guests := 2 }

/-- A request for room R that checks in on 2024-07-05, the day booking A checks
out, and checks out earlier, on 2024-06-20. -/
def reqInverted : CreateBookingRequest :=
  { roomId := 1, checkInDate := 1720137600000, checkOutDate := 1718841600000, guests := 2 }

/-- The booking that the June request creates in `storeR`: three nights at 100. -/
def bookingJune : Booking :=
  { id := 11, client := 7, room := 1, checkInDate := 1717200000000,
    checkOutDate := 1717459200000, guests := 2, status := "pending", totalPrice := 300 }

/-- A request for room R that checks in on 2024-06-04 and out on 2024-06-01. -/
def reqBackward : CreateBookingRequest :=
  { roomId := 1, checkInDate := 1717459200000, checkOutDate := 1717200000000, guests := 2 }

/-- The booking that the backward request creates in `storeR`. -/
def bookingBackward : Booking :=
  { id := 11, client := 7, room := 1, checkInDate := 1717459200000,
    checkOutDate := 1717200000000, guests := 2, status := "pending", totalPrice := -300 }

/-- A service with unit price 50. -/
def serviceSpa : Service := { id := 3, price := 50 }

/-- A store with the service and no order. -/
def storeS : Store := { services := [serviceSpa], nextId := 30 }

/-- A request for three units of the service. -/
def reqThree : CreateServiceOrderRequest :=
  { serviceId := 3, appointmentDate := 1719792000000, quantity := 3 }

/-- The order that the request for three units creates in `storeS`. -/
def orderThree : ServiceOrder :=
  { id := 30, client := 7, service := 3, quantity := 3, appointmentDate := 1719792000000,
    totalPrice := 150, status := "pending" }

/-- A request for zero units of the service. -/
def reqZero : CreateServiceOrderRequest :=
  { serviceId := 3, appointmentDate := 1719792000000, quantity := 0 }

/-- The client who owns booking A, with role `user`. -/
def ownerCaller : Client := { id := 5, role := "user" }

/-- A caller with role `admin`. -/
def adminCaller : Client := { id := 2, role := "admin" }

/-- A cancelled booking of client 5. -/
def bookingCancelled : Booking :=
  { id := 20, client := 5, room := 1, checkInDate := 1719792000000,
    checkOutDate := 1720137600000, guests := 2, status := "cancelled", totalPrice := 400 }

/-- A cancelled service order of client 5. -/
def orderCancelled : ServiceOrder :=
  { id := 21, client := 5, service := 3, quantity := 1, appointmentDate := 1719792000000,
    totalPrice := 50, status := "cancelled" }

/-- A pending service order of client 5. -/
def orderPending : ServiceOrder :=
  { id := 22, client := 5, service := 3, quantity := 1, appointmentDate := 1719792000000,
    totalPrice := 50, status := "pending" }

/-- A store with booking A, the cancelled booking and the two service orders. -/
def storeC : Store :=
  { rooms := [roomR], services := [serviceSpa], bookings := [bookingA, bookingCancelled],
    serviceOrders := [orderCancelled, orderPending], nextId := 30 }

/-- A caller with role `staff` who owns no record. -/
def staffCaller : Client := { id := 8, role := "staff" }

/-- A confirmed booking of client 5. -/
def bookingConfirmed : Booking :=
  { id := 23, client := 5, room := 1, checkInDate := 1719792000000,
    checkOutDate := 1720137600000, guests := 2, status := "confirmed", totalPrice := 400 }

/-- A store with room R and the confirmed booking. -/
def storeK : Store := { rooms := [roomR], bookings := [bookingConfirmed], nextId := 30 }

/-- A review of room R by client 5, rating 4. -/
def reviewFour : Review := { id := 40, client := 5, room := 1, rating := 4, comment := "fine" }

/-- A review of room R by client 6, rating 5. -/
def reviewFive : Review := { id := 41, client := 6, room := 1, rating := 5, comment := "good" }

/-- Room R with the rating of the two reviews: mean 4.5, two reviews. -/
def roomRated : Room := { id := 1, pricePerNight := 100, rating := 9 / 2, numReviews := 2 }

/-- A store with the rated room R, its two reviews, booking A and a pending
service order. -/
def storeV : Store :=
  { rooms := [roomRated], services := [serviceSpa], bookings := [bookingA],
    serviceOrders := [orderPending], reviews := [reviewFour, reviewFive], nextId := 50 }

/-- A request of client 7 to review room R with rating 3. -/
def reqReviewThree : CreateReviewRequest := { roomId := 1, rating := 3, comment := " fair " }

/-- A store with room R rated 4 by its only review, that of client 5. -/
def storeOne : Store :=
  { rooms := [{ id := 1, pricePerNight := 100, rating := 4, numReviews := 1 }],
    reviews := [reviewFour], nextId := 50 }

/-- A request of client 5, who has reviewed room R, to review it again. -/
def reqReviewAgain : CreateReviewRequest := { roomId := 1, rating := 2, comment := "again" }

/-- A request of client 7 to review room R with the rating 4.5. -/
def reqReviewHalf : CreateReviewRequest := { roomId := 1, rating := 9 / 2, comment := "nice" }

/-- A request of client 7 to review room R with the rating 6. -/
def reqReviewSix : CreateReviewRequest := { roomId := 1, rating := 6, comment := "great" }

/-- The review that the request with rating 4.5 creates in `storeV`. -/
def reviewHalf : Review := { id := 50, client := 7, room := 1, rating := 9 / 2, comment := "nice" }

/-- A registration with an email ending in `@staff.com` that also sends the role
`user`. -/
def reqStaffMail : RegisterRequest :=
  { firstName := "Ann", lastName := "Lee", email := "ann@staff.com", phone := "555",
    password := "secret1", role := some "user" }

/-- A client schema that accepts every document. -/
def anyClient : Client → String → Option String := fun _ _ => none

/-- A store whose clients are the admin, the staff member and the user of the
scenarios. -/
def storeStaffed : Store :=
  { rooms := [roomR], services := [serviceSpa],
    clients := [adminCaller, staffCaller, guestCaller], nextId := 60 }

/-- The June request with a body that also carries a status, a total price and
a client. -/
def reqJuneForged : CreateBookingRequest :=
  { roomId := 1, checkInDate := 1717200000000, checkOutDate := 1717459200000, guests := 2,
    status := some "confirmed", totalPrice := some 1, client := some 5 }

/-- The request for three units with a body that also carries the status
`confirmed`. -/
def reqThreeForged : CreateServiceOrderRequest :=
  { serviceId := 3, appointmentDate := 1719792000000, quantity := 3,
    status := some "confirmed" }

/-- A request for room 99, which no store of the scenarios holds, on the dates
of request B. -/
def reqNoRoom : CreateBookingRequest :=
  { roomId := 99, checkInDate := 1719964800000, checkOutDate := 1720224000000, guests := 2 }

/-- A body for `updateRoom` that carries nothing but a rating and a number of
reviews. -/
def bodyRating : UpdateRoomRequest := { rating := some 1, numReviews := some 99 }

/-- A booking of client 9. -/
def bookingOther : Booking :=
  { id := 24, client := 9, room := 1, checkInDate := 1717200000000,
    checkOutDate := 1717459200000, guests := 1, status := "pending", totalPrice := 300 }

/-- A store with a booking of client 9 between two bookings of client 5. -/
def storeMixed : Store :=
  { rooms := [roomR], bookings := [bookingA, bookingOther, bookingCancelled], nextId := 30 }

/-- The local midnight of the day of the scenario: 2024-07-01. -/
def dayStart : Int := 1719792000000

/-- An order at 10:00 of that day. -/
def orderAtTen : ScheduledOrder := { date := 1719792000000 + 10 * 3600000 }

/-- Nineteen reviews of room R, by the clients 200 to 218: six with rating 5 and
thirteen with rating 4; the ratings sum to 82. -/
def nineteenReviews : List Review :=
  (List.range 19).map (fun i : Nat =>
    { id := 100 + i, client := 200 + i, room := 1, rating := if i < 6 then 5 else 4,
      comment := "ok" })

/-- A store with room R and the nineteen reviews. -/
def storeNineteen : Store :=
  { rooms := [{ id := 1, pricePerNight := 100, rating := 43 / 10, numReviews := 19 }],
    reviews := nineteenReviews, nextId := 150 }

/-- A request of client 7 to review room R with rating 5. -/
def reqReviewFive : CreateReviewRequest := { roomId := 1, rating := 5, comment := "superb" }

/-- A request to change a review to rating 2. -/
def reqUpdateTwo : UpdateReviewRequest := { rating := 2, comment := "worse" }

/-! ## Theorems: availability check of `createBooking` -/

/-- The conflict query finds a booking exactly when the store holds one that
passes the filter. -/
theorem find_conflict_isSome_iff (bs : List Booking) (roomId : Nat) (checkIn checkOut : Int) :
    (∃ c, bs.find? (conflictsWith roomId checkIn checkOut) = some c) ↔
      ∃ b ∈ bs, b.room = roomId ∧ (b.status = "pending" ∨ b.status = "confirmed") ∧
        b.checkInDate ≤ checkOut ∧ b.checkOutDate ≥ checkIn := by
  constructor
  · rintro ⟨c, hc⟩
    have hmem := List.mem_of_find?_eq_some hc
    have hp := List.find?_some hc
    simp only [conflictsWith, Bool.and_eq_true, beq_iff_eq, decide_eq_true_eq,
      List.mem_cons, List.mem_singleton, List.not_mem_nil, or_false] at hp
    exact ⟨c, hmem, hp.1.1, hp.2.symm, hp.1.2.1, hp.1.2.2⟩
  · rintro ⟨b, hb, hroom, hst, hin, hout⟩
    cases hf : bs.find? (conflictsWith roomId checkIn checkOut) with
    | some c => exact ⟨c, rfl⟩
    | none =>
      exfalso
      have hnone := List.find?_eq_none.mp hf b hb
      apply hnone
      simp only [conflictsWith, Bool.and_eq_true, beq_iff_eq, decide_eq_true_eq,
        List.mem_cons, List.mem_singleton, List.not_mem_nil, or_false]
      exact ⟨⟨hroom, hin, hout⟩, hst.symm⟩

/-- When the room exists and the conflict query finds a booking, `createBooking`
answers with the availability error and leaves the store as it was. -/
theorem createBooking_of_conflict (s : Store) (caller : Client) (req : CreateBookingRequest)
    (room : Room) (c : Booking) (hroom : findRoom s req.roomId = some room)
    (hc : s.bookings.find? (conflictsWith req.roomId req.checkInDate req.checkOutDate) = some c) :
    createBooking s caller req = (s, Response.fail 400 roomUnavailable) := by
  simp [createBooking, hroom, hc]

/-- When the room exists, no booking conflicts and the guest count passes the
schema, `createBooking` appends the new pending booking. -/
theorem createBooking_of_free (s : Store) (caller : Client) (req : CreateBookingRequest)
    (room : Room) (hroom : findRoom s req.roomId = some room)
    (hc : s.bookings.find? (conflictsWith req.roomId req.checkInDate req.checkOutDate) = none)
    (hg : 1 ≤ req.guests) :
    createBooking s caller req =
      ({ s with
          bookings := s.bookings ++
            [{ id := s.nextId, client := caller.id, room := req.roomId,
               checkInDate := req.checkInDate, checkOutDate := req.checkOutDate,
               guests := req.guests, status := "pending",
               totalPrice := room.pricePerNight * nights req.checkInDate req.checkOutDate }],
          nextId := s.nextId + 1 },
        Response.ok 201
          { id := s.nextId, client := caller.id, room := req.roomId,
            checkInDate := req.checkInDate, checkOutDate := req.checkOutDate,
            guests := req.guests, status := "pending",
            totalPrice := room.pricePerNight * nights req.checkInDate req.checkOutDate }) := by
  have hg' : ¬ req.guests < 1 := not_lt.mpr hg
  simp [createBooking, hroom, hc, validateBooking, bookingPreSave, bookingPaths,
    bookingStatusEnum, exceedsMaxLength, hg']

/-- When the room exists, no booking conflicts and the guest count is below 1,
the schema validation throws and nothing is stored. -/
theorem createBooking_of_bad_guests (s : Store) (caller : Client) (req : CreateBookingRequest)
    (room : Room) (hroom : findRoom s req.roomId = some room)
    (hc : s.bookings.find? (conflictsWith req.roomId req.checkInDate req.checkOutDate) = none)
    (hg : req.guests < 1) :
    createBooking s caller req = (s, Response.thrown "Number of guests must be at least 1") := by
  simp [createBooking, hroom, hc, validateBooking, bookingPaths, hg]

/-- C1, as stated, fails: room R exists and the store holds no booking at all,
yet the request with zero guests creates no booking (the schema validation
throws and the store is unchanged). -/
theorem createBooking_free_but_not_created :
    findRoom storeR reqNoGuests.roomId = some roomR ∧
      ¬ HasConflict storeR reqNoGuests.roomId reqNoGuests.checkInDate reqNoGuests.checkOutDate ∧
      createBooking storeR guestCaller reqNoGuests =
        (storeR, Response.thrown "Number of guests must be at least 1") := by
  refine ⟨by decide, ?_, by decide⟩
  simp [HasConflict, storeR]

/-- C1 (amended): for a request whose room exists, `createBooking` answers with
the availability error exactly when the store holds a pending or confirmed
booking of that room with `checkInDate <= requested checkOutDate` and
`checkOutDate >= requested checkInDate`, and then the store is unchanged;
otherwise it appends the new pending booking when `guests >= 1`, and throws the
validation error, storing nothing, when `guests < 1`. -/
theorem createBooking_unavailable_iff (s : Store) (caller : Client)
    (req : CreateBookingRequest) (room : Room) (hroom : findRoom s req.roomId = some room) :
    ((createBooking s caller req).2 = Response.fail 400 roomUnavailable ↔
        HasConflict s req.roomId req.checkInDate req.checkOutDate) ∧
      (HasConflict s req.roomId req.checkInDate req.checkOutDate →
        (createBooking s caller req).1 = s) ∧
      (¬ HasConflict s req.roomId req.checkInDate req.checkOutDate → 1 ≤ req.guests →
        ∃ b : Booking,
          createBooking s caller req =
            ({ s with bookings := s.bookings ++ [b], nextId := s.nextId + 1 },
              Response.ok 201 b) ∧
          b.room = req.roomId ∧ b.client = caller.id ∧ b.checkInDate = req.checkInDate ∧
          b.checkOutDate = req.checkOutDate ∧ b.guests = req.guests ∧ b.status = "pending") ∧
      (¬ HasConflict s req.roomId req.checkInDate req.checkOutDate → req.guests < 1 →
        createBooking s caller req =
          (s, Response.thrown "Number of guests must be at least 1")) := by
  have hiff := find_conflict_isSome_iff s.bookings req.roomId req.checkInDate req.checkOutDate
  have hfree : ¬ HasConflict s req.roomId req.checkInDate req.checkOutDate →
      s.bookings.find? (conflictsWith req.roomId req.checkInDate req.checkOutDate) = none := by
    intro hno
    cases hf : s.bookings.find? (conflictsWith req.roomId req.checkInDate req.checkOutDate) with
    | none => rfl
    | some c => exact absurd (hiff.mp ⟨c, hf⟩) hno
  have hheld : HasConflict s req.roomId req.checkInDate req.checkOutDate →
      createBooking s caller req = (s, Response.fail 400 roomUnavailable) := by
    intro hcon
    obtain ⟨c, hc⟩ := hiff.mpr hcon
    exact createBooking_of_conflict s caller req room c hroom hc
  refine ⟨⟨?_, fun hcon => by rw [hheld hcon]⟩, fun hcon => by rw [hheld hcon], ?_, ?_⟩
  · intro hresp
    by_contra hno
    rcases lt_or_le req.guests 1 with hg | hg
    · rw [createBooking_of_bad_guests s caller req room hroom (hfree hno) hg] at hresp
      simp [Response.thrown, Response.fail] at hresp
    · rw [createBooking_of_free s caller req room hroom (hfree hno) hg] at hresp
      simp [Response.ok, Response.fail] at hresp
  · intro hno hg
    exact ⟨_, createBooking_of_free s caller req room hroom (hfree hno) hg,
      rfl, rfl, rfl, rfl, rfl, rfl⟩
  · intro hno hg
    exact createBooking_of_bad_guests s caller req room hroom (hfree hno) hg

/-- Witness of C1 (amended): with booking A stored, request B for room R gets the
availability error, as the conflict condition holds. -/
theorem createBooking_unavailable_iff_witness :
    findRoom storeA reqOverlap.roomId = some roomR ∧
      ((createBooking storeA guestCaller reqOverlap).2 = Response.fail 400 roomUnavailable ↔
        HasConflict storeA reqOverlap.roomId reqOverlap.checkInDate reqOverlap.checkOutDate) :=
  ⟨by decide, (createBooking_unavailable_iff storeA guestCaller reqOverlap roomR (by decide)).1⟩

/-- C2: when a stored pending or confirmed booking `b1` and the request are on
the same (existing) room, each has check-in before check-out, and their
half-open ranges share an instant, `createBooking` answers with the
availability error and the store, hence its list of bookings, is unchanged. -/
theorem createBooking_rejects_overlap (s : Store) (caller : Client)
    (req : CreateBookingRequest) (room : Room) (b1 : Booking)
    (hroom : findRoom s req.roomId = some room) (hb1 : b1 ∈ s.bookings)
    (hsame : b1.room = req.roomId)
    (hst : b1.status = "pending" ∨ b1.status = "confirmed")
    (_h1 : b1.checkInDate < b1.checkOutDate) (_h2 : req.checkInDate < req.checkOutDate)
    (hov : ∃ t : Int, (b1.checkInDate ≤ t ∧ t < b1.checkOutDate) ∧
      (req.checkInDate ≤ t ∧ t < req.checkOutDate)) :
    createBooking s caller req = (s, Response.fail 400 roomUnavailable) := by
  obtain ⟨t, ⟨ha, hb⟩, hc, hd⟩ := hov
  have hcon : ∃ b ∈ s.bookings, b.room = req.roomId ∧
      (b.status = "pending" ∨ b.status = "confirmed") ∧
      b.checkInDate ≤ req.checkOutDate ∧ b.checkOutDate ≥ req.checkInDate :=
    ⟨b1, hb1, hsame, hst, by omega, by omega⟩
  obtain ⟨c, hfound⟩ :=
    (find_conflict_isSome_iff s.bookings req.roomId req.checkInDate req.checkOutDate).mpr hcon
  exact createBooking_of_conflict s caller req room c hroom hfound

/-- Witness of C2: booking A (2024-07-01 to 2024-07-05, pending) is stored and
request B (2024-07-03 to 2024-07-06) is rejected; the shared instant is
2024-07-03. -/
theorem createBooking_rejects_overlap_witness :
    createBooking storeA guestCaller reqOverlap = (storeA, Response.fail 400 roomUnavailable) :=
  createBooking_rejects_overlap storeA guestCaller reqOverlap roomR bookingA
    (by decide) (by decide) (by decide) (by decide) (by decide) (by decide)
    ⟨1719964800000, by decide⟩

/-- C3, as stated, fails: booking A (pending, room R, check-out 2024-07-05) is
stored and a request for room R checks in on 2024-07-05, but with a check-out
of 2024-06-20 it is before the check-in of A, the query finds no conflict and
the booking is created. -/
theorem createBooking_touching_accepted :
    bookingA ∈ storeA.bookings ∧ bookingA.status = "pending" ∧
      bookingA.room = reqInverted.roomId ∧
      reqInverted.checkInDate = bookingA.checkOutDate ∧
      (createBooking storeA guestCaller reqInverted).2.status = 201 ∧
      (createBooking storeA guestCaller reqInverted).1.bookings.length = 2 := by
  decide

/-- C3 (amended): for a pending or confirmed booking `a` of an existing room
with `a.checkInDate <= a.checkOutDate`, a request for that room whose check-in
equals the check-out of `a` and whose check-out is not before its check-in is
answered with the availability error, and the store is unchanged. -/
theorem createBooking_rejects_touching (s : Store) (caller : Client)
    (req : CreateBookingRequest) (room : Room) (a : Booking)
    (hroom : findRoom s req.roomId = some room) (ha : a ∈ s.bookings)
    (hsame : a.room = req.roomId)
    (hst : a.status = "pending" ∨ a.status = "confirmed")
    (hord : a.checkInDate ≤ a.checkOutDate) (hreq : req.checkInDate ≤ req.checkOutDate)
    (htouch : req.checkInDate = a.checkOutDate) :
    createBooking s caller req = (s, Response.fail 400 roomUnavailable) := by
  have hcon : ∃ b ∈ s.bookings, b.room = req.roomId ∧
      (b.status = "pending" ∨ b.status = "confirmed") ∧
      b.checkInDate ≤ req.checkOutDate ∧ b.checkOutDate ≥ req.checkInDate :=
    ⟨a, ha, hsame, hst, by omega, by omega⟩
  obtain ⟨c, hfound⟩ :=
    (find_conflict_isSome_iff s.bookings req.roomId req.checkInDate req.checkOutDate).mpr hcon
  exact createBooking_of_conflict s caller req room c hroom hfound

/-- Witness of C3 (amended): with booking A (2024-07-01 to 2024-07-05) stored,
the request 2024-07-05 to 2024-07-08 is rejected. -/
theorem createBooking_rejects_touching_witness :
    createBooking storeA guestCaller reqTouch = (storeA, Response.fail 400 roomUnavailable) :=
  createBooking_rejects_touching storeA guestCaller reqTouch roomR bookingA
    (by decide) (by decide) (by decide) (by decide) (by decide) (by decide) (by decide)

/-! ## Theorems: price of a stay -/

/-- The integer formula of `nights` is the ceiling of the exact quotient
`(checkOut - checkIn) / 86400000`. -/
theorem nights_eq_ceil (checkIn checkOut : Int) :
    nights checkIn checkOut = ⌈((checkOut - checkIn : Int) : ℚ) / 86400000⌉ := by
  have hfloor := Rat.floor_intCast_div_natCast (-(checkOut - checkIn)) 86400000
  have hneg : ((checkOut - checkIn : Int) : ℚ) / 86400000 =
      -((((-(checkOut - checkIn) : Int)) : ℚ) / ((86400000 : ℕ) : ℚ)) := by
    push_cast
    ring
  rw [hneg, Int.ceil_neg, hfloor]
  simp [nights, msPerDay]

/-- A successful `createBooking` went through every branch: the room exists,
no booking conflicts, the guest count passes the schema. -/
theorem createBooking_ok_inv (s : Store) (caller : Client) (req : CreateBookingRequest)
    (b : Booking) (h : (createBooking s caller req).2 = Response.ok 201 b) :
    ∃ room, findRoom s req.roomId = some room ∧
      s.bookings.find? (conflictsWith req.roomId req.checkInDate req.checkOutDate) = none ∧
      1 ≤ req.guests := by
  cases hroom : findRoom s req.roomId with
  | none => simp [createBooking, hroom, Response.fail, Response.ok] at h
  | some room =>
    cases hc : s.bookings.find? (conflictsWith req.roomId req.checkInDate req.checkOutDate) with
    | some c =>
      rw [createBooking_of_conflict s caller req room c hroom hc] at h
      simp [Response.fail, Response.ok] at h
    | none =>
      rcases lt_or_le req.guests 1 with hg | hg
      · rw [createBooking_of_bad_guests s caller req room hroom hc hg] at h
        simp [Response.thrown, Response.ok] at h
      · exact ⟨room, rfl, rfl, hg⟩

/-- C4: a booking `b` returned by a successful `createBooking` is stored, and its
`totalPrice` is `nights * room.pricePerNight` with
`nights = ceil((checkOut - checkIn) / 86400000)`; this is the value the
controller computes (`stayPrice`), and the pre-save hook, run on the document,
assigns the same value (it returns the document as it is). -/
theorem createBooking_totalPrice (s : Store) (caller : Client) (req : CreateBookingRequest)
    (b : Booking) (h : (createBooking s caller req).2 = Response.ok 201 b) :
    ∃ room, findRoom s req.roomId = some room ∧
      b ∈ (createBooking s caller req).1.bookings ∧
      b.totalPrice =
        ⌈((req.checkOutDate - req.checkInDate : Int) : ℚ) / 86400000⌉ * room.pricePerNight ∧
      b.totalPrice = stayPrice room.pricePerNight req.checkInDate req.checkOutDate ∧
      bookingPreSave s b bookingPaths = Except.ok b := by
  obtain ⟨room, hroom, hc, hg⟩ := createBooking_ok_inv s caller req b h
  have hrun := createBooking_of_free s caller req room hroom hc hg
  rw [hrun] at h
  simp only [Response.ok, Response.mk.injEq, Option.some.injEq, true_and] at h
  subst h
  refine ⟨room, hroom, ?_, ?_, ?_, ?_⟩
  · rw [hrun]
    simp
  · rw [← nights_eq_ceil]
    exact mul_comm _ _
  · simp [stayPrice, mul_comm]
  · simp [bookingPreSave, bookingPaths, hroom]

/-- Witness of C4: rate 100, 2024-06-01 to 2024-06-04 gives three nights and a
total price of 300. -/
theorem createBooking_totalPrice_witness :
    nights reqJune.checkInDate reqJune.checkOutDate = 3 ∧ bookingJune.totalPrice = 300 ∧
      ∃ room, findRoom storeR reqJune.roomId = some room ∧
        bookingJune ∈ (createBooking storeR guestCaller reqJune).1.bookings ∧
        bookingJune.totalPrice =
          ⌈((reqJune.checkOutDate - reqJune.checkInDate : Int) : ℚ) / 86400000⌉ *
            room.pricePerNight ∧
        bookingJune.totalPrice =
          stayPrice room.pricePerNight reqJune.checkInDate reqJune.checkOutDate ∧
        bookingPreSave storeR bookingJune bookingPaths = Except.ok bookingJune :=
  ⟨by decide, by decide,
    createBooking_totalPrice storeR guestCaller reqJune bookingJune (by decide)⟩

/-- C5: the stay price is a function of `(rate, checkIn, checkOut)` alone and
scales linearly in whole days: one day from `d1` costs `rate`, two days cost
`2 * rate`, which is twice the price of one day. -/
theorem stayPrice_two_days (rate d1 : Int) :
    stayPrice rate d1 (d1 + 2 * msPerDay) = 2 * stayPrice rate d1 (d1 + msPerDay) ∧
      stayPrice rate d1 (d1 + msPerDay) = rate ∧
      stayPrice rate d1 (d1 + 2 * msPerDay) = 2 * rate := by
  have h1 : nights d1 (d1 + msPerDay) = 1 := by
    simp only [nights, msPerDay]
    omega
  have h2 : nights d1 (d1 + 2 * msPerDay) = 2 := by
    simp only [nights, msPerDay]
    omega
  simp [stayPrice, h1, h2]

/-- C6, evaluated on the code: the request for room R that checks in on
2024-06-04 and out on 2024-06-01 is answered with 201 and a booking of minus
three nights, total price -300, is stored. -/
theorem createBooking_backward_dates_stored :
    reqBackward.checkOutDate < reqBackward.checkInDate ∧
      createBooking storeR guestCaller reqBackward =
        ({ storeR with bookings := [bookingBackward], nextId := 12 },
          Response.ok 201 bookingBackward) := by
  decide

/-! ## Theorems: service orders -/

/-- When the service exists and the quantity is below 1, the schema validation
throws and nothing is stored. -/
theorem createServiceOrder_of_bad_quantity (s : Store) (caller : Client)
    (req : CreateServiceOrderRequest) (service : Service)
    (hsvc : findService s req.serviceId = some service) (hq : req.quantity < 1) :
    createServiceOrder s caller req = (s, Response.thrown "Quantity must be at least 1") := by
  simp [createServiceOrder, hsvc, validateServiceOrder, serviceOrderPaths, hq]

/-- When the service does not exist, the answer is 404 and nothing is stored. -/
theorem createServiceOrder_of_missing (s : Store) (caller : Client)
    (req : CreateServiceOrderRequest) (hsvc : findService s req.serviceId = none) :
    createServiceOrder s caller req = (s, Response.fail 404 "Service not found") := by
  simp [createServiceOrder, hsvc]

/-- C7: a service order `o` returned by a successful `createServiceOrder` is
stored with the requested quantity, and its `totalPrice` is
`service.price * quantity` for the service the request refers to; the pre-save
hook, run on the document, assigns that same value. -/
theorem createServiceOrder_totalPrice (s : Store) (caller : Client)
    (req : CreateServiceOrderRequest) (o : ServiceOrder)
    (h : (createServiceOrder s caller req).2 = Response.ok 201 o) :
    ∃ service, findService s req.serviceId = some service ∧
      o ∈ (createServiceOrder s caller req).1.serviceOrders ∧
      o.quantity = req.quantity ∧
      o.totalPrice = service.price * req.quantity ∧
      serviceOrderPreSave s o serviceOrderPaths = Except.ok o := by
  cases hsvc : findService s req.serviceId with
  | none =>
    rw [createServiceOrder_of_missing s caller req hsvc] at h
    simp [Response.fail, Response.ok] at h
  | some service =>
    rcases lt_or_le req.quantity 1 with hq | hq
    · rw [createServiceOrder_of_bad_quantity s caller req service hsvc hq] at h
      simp [Response.thrown, Response.ok] at h
    · have hq' : ¬ req.quantity < 1 := not_lt.mpr hq
      by_cases hlen : exceedsMaxLength 500 req.specialRequests = true
      · simp [createServiceOrder, hsvc, validateServiceOrder, serviceOrderPaths,
          serviceOrderStatusEnum, hq', hlen, Response.thrown, Response.ok] at h
      · simp only [createServiceOrder, hsvc, validateServiceOrder, serviceOrderPaths,
          serviceOrderStatusEnum, serviceOrderPreSave, hq', hlen] at h ⊢
        simp [Response.ok] at h ⊢
        subst h
        simp [hsvc]

/-- Witness of C7: price 50 and quantity 3 give a total price of 150. -/
theorem createServiceOrder_totalPrice_witness :
    orderThree.totalPrice = 150 ∧
      ∃ service, findService storeS reqThree.serviceId = some service ∧
        orderThree ∈ (createServiceOrder storeS guestCaller reqThree).1.serviceOrders ∧
        orderThree.quantity = reqThree.quantity ∧
        orderThree.totalPrice = service.price * reqThree.quantity ∧
        serviceOrderPreSave storeS orderThree serviceOrderPaths = Except.ok orderThree :=
  ⟨by decide,
    createServiceOrder_totalPrice storeS guestCaller reqThree orderThree (by decide)⟩

/-- C8: a request whose quantity is below 1 is rejected and no service order is
persisted: the store is unchanged and the answer is an error, which is the
thrown validation error `Quantity must be at least 1` whenever the service
exists. -/
theorem createServiceOrder_rejects_quantity (s : Store) (caller : Client)
    (req : CreateServiceOrderRequest) (hq : req.quantity < 1) :
    (createServiceOrder s caller req).1 = s ∧
      (createServiceOrder s caller req).2.success = false ∧
      (∀ service, findService s req.serviceId = some service →
        (createServiceOrder s caller req).2 = Response.thrown "Quantity must be at least 1") := by
  cases hsvc : findService s req.serviceId with
  | none =>
    rw [createServiceOrder_of_missing s caller req hsvc]
    simp [Response.fail]
  | some service =>
    rw [createServiceOrder_of_bad_quantity s caller req service hsvc hq]
    simp [Response.thrown]

/-- Witness of C8: a request for zero units of an existing service stores
nothing and is answered with the validation error. -/
theorem createServiceOrder_rejects_quantity_witness :
    (createServiceOrder storeS guestCaller reqZero).1 = storeS ∧
      (createServiceOrder storeS guestCaller reqZero).2.success = false ∧
      (∀ service, findService storeS reqZero.serviceId = some service →
        (createServiceOrder storeS guestCaller reqZero).2 =
          Response.thrown "Quantity must be at least 1") :=
  createServiceOrder_rejects_quantity storeS guestCaller reqZero (by decide)

/-! ## Theorems: status changes -/

/-- After the document found under an id is written back, `findById` returns
the written document. -/
theorem find_replaceFirst {α : Type} (key : α → Nat) (d x : α) (l : List α)
    (h : l.find? (fun y => key y == key d) = some x) :
    (replaceFirst key d l).find? (fun y => key y == key d) = some d := by
  induction l with
  | nil => simp at h
  | cons y ys ih =>
    by_cases hy : key y = key d
    · simp [replaceFirst, hy]
    · have hy' : (key y == key d) = false := by simpa using hy
      rw [List.find?_cons, hy'] at h
      simp only [replaceFirst, hy, if_false, List.find?_cons, hy']
      exact ih h

/-- A stored booking that passes the schema still passes it with a new status
exactly when the new status is in the enum. -/
theorem validateBooking_status (booking : Booking) (status : String)
    (hvalid : validateBooking booking = none) :
    validateBooking { booking with status := status } =
      if status ∉ bookingStatusEnum then some "status is not a valid enum value" else none := by
  unfold validateBooking at hvalid ⊢
  split_ifs at hvalid
  split_ifs <;> simp_all

/-- A stored service order that passes the schema still passes it with a new
status exactly when the new status is in the enum. -/
theorem validateServiceOrder_status (order : ServiceOrder) (status : String)
    (hvalid : validateServiceOrder order = none) :
    validateServiceOrder { order with status := status } =
      if status ∉ serviceOrderStatusEnum then some "status is not a valid enum value"
      else none := by
  unfold validateServiceOrder at hvalid ⊢
  split_ifs at hvalid
  split_ifs <;> simp_all

/-- The refusals of `updateBookingStatus` before the write, and the write, for a
stored booking that passes the schema: the answer depends on the caller, the
owner and the new status only. -/
theorem updateBookingStatus_eq (s : Store) (caller : Client) (id : Nat) (status : String)
    (booking : Booking) (hfind : findBooking s id = some booking)
    (hvalid : validateBooking booking = none) :
    updateBookingStatus s caller id status =
      if caller.role ≠ "admin" ∧ booking.client ≠ caller.id then
        (s, Response.fail 401 "Not authorized to update this booking")
      else if status = "confirmed" ∧ caller.role ≠ "admin" then
        (s, Response.fail 401 "Only admin can confirm bookings")
      else if status ∉ bookingStatusEnum then
        (s, Response.thrown "status is not a valid enum value")
      else
        ({ s with bookings := replaceFirst Booking.id { booking with status := status } s.bookings },
          Response.ok 200 { booking with status := status }) := by
  simp only [updateBookingStatus, hfind, validateBooking_status booking status hvalid]
  split_ifs <;> simp_all [bookingPreSave]

/-- The refusals and the write of `updateServiceOrderStatus`, for a stored
service order that passes the schema. -/
theorem updateServiceOrderStatus_eq (s : Store) (caller : Client) (id : Nat) (status : String)
    (order : ServiceOrder) (hfind : findServiceOrder s id = some order)
    (hvalid : validateServiceOrder order = none) :
    updateServiceOrderStatus s caller id status =
      if caller.role ≠ "admin" ∧ order.client ≠ caller.id then
        (s, Response.fail 401 "Not authorized to update this service order")
      else if status = "confirmed" ∧ caller.role ≠ "admin" then
        (s, Response.fail 401 "Only admin can confirm service orders")
      else if status ∉ serviceOrderStatusEnum then
        (s, Response.thrown "status is not a valid enum value")
      else
        ({ s with
            serviceOrders :=
              replaceFirst ServiceOrder.id { order with status := status } s.serviceOrders },
          Response.ok 200 { order with status := status }) := by
  simp only [updateServiceOrderStatus, hfind, validateServiceOrder_status order status hvalid]
  split_ifs <;> simp_all [serviceOrderPreSave]

/-- C9: for a caller whose role is not admin, a request to set an existing
booking or service order to `confirmed` is answered with a 401 authorization
error (not the owner: `Not authorized to update ...`; the owner: `Only admin
can confirm ...`) and the store is unchanged, so the record is still found
with its old status. -/
theorem confirm_requires_admin (s : Store) (caller : Client) (id : Nat)
    (hrole : caller.role ≠ "admin") :
    (∀ booking, findBooking s id = some booking →
      updateBookingStatus s caller id "confirmed" =
          (s, Response.fail 401
            (if booking.client ≠ caller.id then "Not authorized to update this booking"
              else "Only admin can confirm bookings")) ∧
        findBooking (updateBookingStatus s caller id "confirmed").1 id = some booking) ∧
      (∀ order, findServiceOrder s id = some order →
        updateServiceOrderStatus s caller id "confirmed" =
            (s, Response.fail 401
              (if order.client ≠ caller.id then "Not authorized to update this service order"
                else "Only admin can confirm service orders")) ∧
          findServiceOrder (updateServiceOrderStatus s caller id "confirmed").1 id =
            some order) := by
  constructor
  · intro booking hfind
    by_cases hown : booking.client = caller.id
    · have h : updateBookingStatus s caller id "confirmed" =
          (s, Response.fail 401 "Only admin can confirm bookings") := by
        simp [updateBookingStatus, hfind, hrole, hown]
      rw [h]
      simp [hown, hfind]
    · have h : updateBookingStatus s caller id "confirmed" =
          (s, Response.fail 401 "Not authorized to update this booking") := by
        simp [updateBookingStatus, hfind, hrole, hown]
      rw [h]
      simp [hown, hfind]
  · intro order hfind
    by_cases hown : order.client = caller.id
    · have h : updateServiceOrderStatus s caller id "confirmed" =
          (s, Response.fail 401 "Only admin can confirm service orders") := by
        simp [updateServiceOrderStatus, hfind, hrole, hown]
      rw [h]
      simp [hown, hfind]
    · have h : updateServiceOrderStatus s caller id "confirmed" =
          (s, Response.fail 401 "Not authorized to update this service order") := by
        simp [updateServiceOrderStatus, hfind, hrole, hown]
      rw [h]
      simp [hown, hfind]

/-- Witness of C9: the owner of booking A and of the pending service order, whose
role is `user`, cannot confirm either; the store stays as it was. -/
theorem confirm_requires_admin_witness :
    updateBookingStatus storeC ownerCaller 10 "confirmed" =
        (storeC, Response.fail 401 "Only admin can confirm bookings") ∧
      updateServiceOrderStatus storeC ownerCaller 22 "confirmed" =
        (storeC, Response.fail 401 "Only admin can confirm service orders") :=
  ⟨((confirm_requires_admin storeC ownerCaller 10 (by decide)).1 bookingA (by decide)).1,
    ((confirm_requires_admin storeC ownerCaller 22 (by decide)).2 orderPending (by decide)).1⟩

/-- C10, as stated, fails: the owner moves a cancelled booking back to `pending`,
an admin moves it to `confirmed`, and the same two changes are applied to a
cancelled service order; each call answers 200 and the stored status changes. -/
theorem updateStatus_leaves_cancelled :
    findBooking storeC 20 = some bookingCancelled ∧ bookingCancelled.status = "cancelled" ∧
      (updateBookingStatus storeC ownerCaller 20 "pending").2 =
        Response.ok 200 { bookingCancelled with status := "pending" } ∧
      findBooking (updateBookingStatus storeC ownerCaller 20 "pending").1 20 =
        some { bookingCancelled with status := "pending" } ∧
      findBooking (updateBookingStatus storeC adminCaller 20 "confirmed").1 20 =
        some { bookingCancelled with status := "confirmed" } ∧
      findServiceOrder storeC 21 = some orderCancelled ∧ orderCancelled.status = "cancelled" ∧
      findServiceOrder (updateServiceOrderStatus storeC ownerCaller 21 "pending").1 21 =
        some { orderCancelled with status := "pending" } ∧
      findServiceOrder (updateServiceOrderStatus storeC adminCaller 21 "confirmed").1 21 =
        some { orderCancelled with status := "confirmed" } := by
  decide

/-- C10 (amended): neither controller looks at the current status.  A status
change of a stored (schema-valid) booking or service order succeeds exactly
when the caller is an admin or the owner, the new status is not `confirmed`
unless the caller is an admin, and the new status is in the enum of the schema;
it then stores the new status whatever the old one was.  Every unsuccessful
call leaves the store unchanged. -/
theorem updateStatus_accepts_iff (s : Store) (caller : Client) (id : Nat) (status : String) :
    (∀ booking, findBooking s id = some booking → validateBooking booking = none →
      ((updateBookingStatus s caller id status).2.success = true ↔
          (caller.role = "admin" ∨ booking.client = caller.id) ∧
            (status = "confirmed" → caller.role = "admin") ∧ status ∈ bookingStatusEnum) ∧
        ((updateBookingStatus s caller id status).2.success = true →
          findBooking (updateBookingStatus s caller id status).1 id =
            some { booking with status := status })) ∧
      (∀ order, findServiceOrder s id = some order → validateServiceOrder order = none →
        ((updateServiceOrderStatus s caller id status).2.success = true ↔
            (caller.role = "admin" ∨ order.client = caller.id) ∧
              (status = "confirmed" → caller.role = "admin") ∧
              status ∈ serviceOrderStatusEnum) ∧
          ((updateServiceOrderStatus s caller id status).2.success = true →
            findServiceOrder (updateServiceOrderStatus s caller id status).1 id =
              some { order with status := status })) ∧
      ((updateBookingStatus s caller id status).2.success = false →
        (updateBookingStatus s caller id status).1 = s) ∧
      ((updateServiceOrderStatus s caller id status).2.success = false →
        (updateServiceOrderStatus s caller id status).1 = s) := by
  refine ⟨?_, ?_, ?_, ?_⟩
  · intro booking hfind hvalid
    have hid : booking.id = id := by
      have := List.find?_some hfind
      simpa using this
    have hwrite : findBooking
        { s with bookings := replaceFirst Booking.id { booking with status := status } s.bookings }
        id = some { booking with status := status } := by
      have := find_replaceFirst Booking.id { booking with status := status } booking s.bookings
        (by simpa [findBooking, hid] using hfind)
      simpa [findBooking, hid] using this
    rw [updateBookingStatus_eq s caller id status booking hfind hvalid]
    split_ifs with h1 h2 h3
    all_goals
      simp only [Response.fail, Response.thrown, Response.ok, Bool.false_eq_true, false_iff,
        false_imp_iff, and_true, true_iff, true_imp_iff]
    all_goals first
      | exact ⟨by tauto, hwrite⟩
      | tauto
  · intro order hfind hvalid
    have hid : order.id = id := by
      have := List.find?_some hfind
      simpa using this
    have hwrite : findServiceOrder
        { s with
          serviceOrders :=
            replaceFirst ServiceOrder.id { order with status := status } s.serviceOrders }
        id = some { order with status := status } := by
      have := find_replaceFirst ServiceOrder.id { order with status := status } order
        s.serviceOrders (by simpa [findServiceOrder, hid] using hfind)
      simpa [findServiceOrder, hid] using this
    rw [updateServiceOrderStatus_eq s caller id status order hfind hvalid]
    split_ifs with h1 h2 h3
    all_goals
      simp only [Response.fail, Response.thrown, Response.ok, Bool.false_eq_true, false_iff,
        false_imp_iff, and_true, true_iff, true_imp_iff]
    all_goals first
      | exact ⟨by tauto, hwrite⟩
      | tauto
  · cases hfind : findBooking s id with
    | none => simp [updateBookingStatus, hfind]
    | some booking =>
      simp only [updateBookingStatus, hfind]
      split_ifs
      · simp
      · simp
      · cases hv : validateBooking { booking with status := status } with
        | some msg => simp
        | none => simp [bookingPreSave, Response.ok]
  · cases hfind : findServiceOrder s id with
    | none => simp [updateServiceOrderStatus, hfind]
    | some order =>
      simp only [updateServiceOrderStatus, hfind]
      split_ifs
      · simp
      · simp
      · cases hv : validateServiceOrder { order with status := status } with
        | some msg => simp
        | none => simp [serviceOrderPreSave, Response.ok]

/-- Witness of C10 (amended): an admin sets the cancelled booking to `confirmed`,
and the booking is then stored with status `confirmed`. -/
theorem updateStatus_accepts_iff_witness :
    findBooking (updateBookingStatus storeC adminCaller 20 "confirmed").1 20 =
      some { bookingCancelled with status := "confirmed" } :=
  ((updateStatus_accepts_iff storeC adminCaller 20 "confirmed").1 bookingCancelled
    (by decide) (by decide)).2 (by decide)

/-! ## Theorems: completing a booking, ownership checks -/

/-- The request to set a booking to `completed` never succeeds and leaves the
store as it was, whoever asks: the validation of the document refuses the
status, when the call gets that far. -/
theorem updateBookingStatus_completed_fails (s : Store) (caller : Client) (id : Nat) :
    (updateBookingStatus s caller id "completed").2.success = false ∧
      (updateBookingStatus s caller id "completed").1 = s := by
  unfold updateBookingStatus
  cases hfind : findBooking s id with
  | none => simp [Response.fail]
  | some booking =>
    simp only []
    by_cases hown : caller.role ≠ "admin" ∧ booking.client ≠ caller.id
    · rw [if_pos hown]
      simp [Response.fail]
    · rw [if_neg hown]
      have hval : ∃ msg, validateBooking { booking with status := "completed" } = some msg := by
        unfold validateBooking
        by_cases hg : booking.guests < 1
        · exact ⟨_, if_pos hg⟩
        · refine ⟨"status is not a valid enum value", ?_⟩
          have henum : "completed" ∉ bookingStatusEnum := by decide
          rw [if_neg hg, if_pos henum]
      obtain ⟨msg, hmsg⟩ := hval
      simp [hmsg, Response.thrown]

/-- C11, evaluated on the code: no caller can complete a booking.  For the
confirmed booking 23 of client 5 the request of an admin with status `completed`
is thrown out by the validation of the schema, whose status enum lacks
`completed`, and answered with 500; a staff caller who is not the owner is
answered with 401; the booking stays `confirmed`.  For every store, caller and
id the request fails and leaves the store as it was.  The sibling
`updateServiceOrderStatus`, whose schema has `completed`, completes the order 22
for an admin. -/
theorem complete_booking_refused :
    findBooking storeK 23 = some bookingConfirmed ∧ bookingConfirmed.status = "confirmed" ∧
      updateBookingStatus storeK adminCaller 23 "completed" =
        (storeK, Response.thrown "status is not a valid enum value") ∧
      updateBookingStatus storeK staffCaller 23 "completed" =
        (storeK, Response.fail 401 "Not authorized to update this booking") ∧
      (∀ (s : Store) (caller : Client) (id : Nat),
        (updateBookingStatus s caller id "completed").2.success = false ∧
          (updateBookingStatus s caller id "completed").1 = s) ∧
      (updateServiceOrderStatus storeC adminCaller 22 "completed").2 =
        Response.ok 200 { orderPending with status := "completed" } :=
  ⟨by decide, by decide, by decide, by decide, updateBookingStatus_completed_fails, by decide⟩

/-- C12: each of `updateBookingStatus`, `deleteBooking`, `updateServiceOrderStatus`,
`deleteServiceOrder` and `deleteReview`, called on an existing record by a
caller who is neither its owner nor an admin, answers with the 401 ownership
error and returns the store unchanged; called by the owner or an admin, the
deletions succeed and the status updates are not answered with the ownership
error. -/
theorem ownership_check (s : Store) (caller : Client) (id : Nat) :
    (∀ booking, findBooking s id = some booking →
      (caller.role ≠ "admin" ∧ booking.client ≠ caller.id →
        (∀ status, updateBookingStatus s caller id status =
          (s, Response.fail 401 "Not authorized to update this booking")) ∧
        deleteBooking s caller id =
          (s, Response.fail 401 "Not authorized to delete this booking")) ∧
      (caller.role = "admin" ∨ booking.client = caller.id →
        (∀ status, (updateBookingStatus s caller id status).2 ≠
          Response.fail 401 "Not authorized to update this booking") ∧
        (deleteBooking s caller id).2 = Response.ok 200 ())) ∧
    (∀ order, findServiceOrder s id = some order →
      (caller.role ≠ "admin" ∧ order.client ≠ caller.id →
        (∀ status, updateServiceOrderStatus s caller id status =
          (s, Response.fail 401 "Not authorized to update this service order")) ∧
        deleteServiceOrder s caller id =
          (s, Response.fail 401 "Not authorized to delete this service order")) ∧
      (caller.role = "admin" ∨ order.client = caller.id →
        (∀ status, (updateServiceOrderStatus s caller id status).2 ≠
          Response.fail 401 "Not authorized to update this service order") ∧
        (deleteServiceOrder s caller id).2 = Response.ok 200 ())) ∧
    (∀ review, findReview s id = some review →
      (caller.role ≠ "admin" ∧ review.client ≠ caller.id →
        deleteReview s caller id =
          (s, Response.fail 401 "Not authorized to delete this review")) ∧
      (caller.role = "admin" ∨ review.client = caller.id →
        (deleteReview s caller id).2 = Response.ok 200 ())) := by
  refine ⟨?_, ?_, ?_⟩
  · intro booking hfind
    refine ⟨fun hno => ⟨fun status => ?_, ?_⟩, fun hyes => ⟨fun status => ?_, ?_⟩⟩
    · simp [updateBookingStatus, hfind, hno]
    · simp [deleteBooking, hfind, hno]
    · have hpass : ¬ (caller.role ≠ "admin" ∧ booking.client ≠ caller.id) := by tauto
      simp only [updateBookingStatus, hfind, hpass, if_false]
      split_ifs
      · simp [Response.fail]
      · cases hv : validateBooking { booking with status := status } with
        | some msg => simp [Response.thrown, Response.fail]
        | none => simp [bookingPreSave, Response.ok, Response.fail]
    · have hpass : ¬ (caller.role ≠ "admin" ∧ booking.client ≠ caller.id) := by tauto
      simp [deleteBooking, hfind, hpass]
  · intro order hfind
    refine ⟨fun hno => ⟨fun status => ?_, ?_⟩, fun hyes => ⟨fun status => ?_, ?_⟩⟩
    · simp [updateServiceOrderStatus, hfind, hno]
    · simp [deleteServiceOrder, hfind, hno]
    · have hpass : ¬ (caller.role ≠ "admin" ∧ order.client ≠ caller.id) := by tauto
      simp only [updateServiceOrderStatus, hfind, hpass, if_false]
      split_ifs
      · simp [Response.fail]
      · cases hv : validateServiceOrder { order with status := status } with
        | some msg => simp [Response.thrown, Response.fail]
        | none => simp [serviceOrderPreSave, Response.ok, Response.fail]
    · have hpass : ¬ (caller.role ≠ "admin" ∧ order.client ≠ caller.id) := by tauto
      simp [deleteServiceOrder, hfind, hpass]
  · intro review hfind
    refine ⟨fun hno => ?_, fun hyes => ?_⟩
    · simp [deleteReview, hfind, hno]
    · have hpass : ¬ (review.client ≠ caller.id ∧ caller.role ≠ "admin") := by tauto
      simp [deleteReview, hfind, hpass]

/-- Witness of C12: the staff caller, who owns nothing, is refused by all five
operations on the records of client 5 and the store stays as it was. -/
theorem ownership_check_witness :
    updateBookingStatus storeV staffCaller 10 "cancelled" =
        (storeV, Response.fail 401 "Not authorized to update this booking") ∧
      deleteBooking storeV staffCaller 10 =
        (storeV, Response.fail 401 "Not authorized to delete this booking") ∧
      updateServiceOrderStatus storeV staffCaller 22 "cancelled" =
        (storeV, Response.fail 401 "Not authorized to update this service order") ∧
      deleteServiceOrder storeV staffCaller 22 =
        (storeV, Response.fail 401 "Not authorized to delete this service order") ∧
      deleteReview storeV staffCaller 40 =
        (storeV, Response.fail 401 "Not authorized to delete this review") :=
  ⟨(((ownership_check storeV staffCaller 10).1 bookingA (by decide)).1
      ⟨by decide, by decide⟩).1 "cancelled",
    (((ownership_check storeV staffCaller 10).1 bookingA (by decide)).1
      ⟨by decide, by decide⟩).2,
    (((ownership_check storeV staffCaller 22).2.1 orderPending (by decide)).1
      ⟨by decide, by decide⟩).1 "cancelled",
    (((ownership_check storeV staffCaller 22).2.1 orderPending (by decide)).1
      ⟨by decide, by decide⟩).2,
    ((ownership_check storeV staffCaller 40).2.2 reviewFour (by decide!)).1
      ⟨by decide, by decide⟩⟩

/-! ## Theorems: the aggregate rating of a room -/

/-- The value `toFixed1 x` is a multiple of one tenth. -/
theorem toFixed1_tenth (x : ℚ) : ∃ n : Int, toFixed1 x = (n : ℚ) / 10 := by
  unfold toFixed1
  split_ifs
  · exact ⟨-⌊(-x) * 10 + 1 / 2⌋, by push_cast; ring⟩
  · exact ⟨⌊x * 10 + 1 / 2⌋, rfl⟩

/-- The value `toFixed1 x` is at distance at most one twentieth from `x`. -/
theorem toFixed1_near (x : ℚ) : |toFixed1 x - x| ≤ 1 / 20 := by
  unfold toFixed1
  split_ifs
  · have h1 := Int.floor_le ((-x) * 10 + 1 / 2)
    have h2 := Int.lt_floor_add_one ((-x) * 10 + 1 / 2)
    rw [abs_le]
    constructor <;> linarith
  · have h1 := Int.floor_le (x * 10 + 1 / 2)
    have h2 := Int.lt_floor_add_one (x * 10 + 1 / 2)
    rw [abs_le]
    constructor <;> linarith

/-- The integer `roundHalfEven y` is at distance at most one half from `y`. -/
theorem roundHalfEven_near (y : ℚ) : |(roundHalfEven y : ℚ) - y| ≤ 1 / 2 := by
  have h1 := Int.floor_le y
  have h2 := Int.lt_floor_add_one y
  unfold roundHalfEven
  simp only []
  split_ifs <;> rw [abs_le] <;> push_cast <;> constructor <;> linarith

/-- The power of two `2 ^ binaryExponent x` is at most the magnitude of a non-zero `x`. -/
theorem binaryExponent_le (x : ℚ) (hx : x ≠ 0) : (2 : ℚ) ^ binaryExponent x ≤ |x| := by
  unfold binaryExponent
  simp only []
  split_ifs with h
  · have hnum : x.num.natAbs ≠ 0 := by
      simpa using hx
    have hden : x.den ≠ 0 := x.den_nz
    have hn : (2 : ℚ) ^ (Nat.log2 x.num.natAbs) ≤ (x.num.natAbs : ℚ) := by
      exact_mod_cast Nat.log2_self_le hnum
    have hd : (x.den : ℚ) < (2 : ℚ) ^ (Nat.log2 x.den + 1) := by
      exact_mod_cast (Nat.lt_log2_self (n := x.den))
    have hdpos : (0 : ℚ) < (x.den : ℚ) := by exact_mod_cast Nat.pos_of_ne_zero hden
    have habs : |x| = (x.num.natAbs : ℚ) / (x.den : ℚ) := by
      conv_lhs => rw [← Rat.num_div_den x]
      rw [abs_div, Nat.abs_cast, Nat.cast_natAbs, Int.cast_abs]
    have hpow : (2 : ℚ) ^ ((Nat.log2 x.num.natAbs : Int) - (Nat.log2 x.den : Int) - 1) =
        (2 : ℚ) ^ (Nat.log2 x.num.natAbs) / (2 : ℚ) ^ (Nat.log2 x.den + 1) := by
      rw [show ((Nat.log2 x.num.natAbs : Int) - (Nat.log2 x.den : Int) - 1) =
        (Nat.log2 x.num.natAbs : Int) - ((Nat.log2 x.den + 1 : Nat) : Int) by push_cast; ring]
      rw [zpow_sub₀ (by norm_num : (2 : ℚ) ≠ 0), zpow_natCast, zpow_natCast]
    rw [hpow, habs]
    have hp2 : (0 : ℚ) < (2 : ℚ) ^ (Nat.log2 x.den + 1) := by positivity
    have hp1 : (0 : ℚ) ≤ (2 : ℚ) ^ (Nat.log2 x.num.natAbs) := by positivity
    calc (2 : ℚ) ^ (Nat.log2 x.num.natAbs) / (2 : ℚ) ^ (Nat.log2 x.den + 1)
        ≤ (2 : ℚ) ^ (Nat.log2 x.num.natAbs) / (x.den : ℚ) :=
          div_le_div_of_nonneg_left hp1 hdpos hd.le
      _ ≤ (x.num.natAbs : ℚ) / (x.den : ℚ) := div_le_div_of_nonneg_right hn hdpos.le
  · exact not_lt.mp h

/-- The double nearest to `x` differs from `x` by at most `|x| / 2 ^ 53`: the
relative error of one rounding to 53 significant bits. -/
theorem toDouble_near (x : ℚ) : |toDouble x - x| ≤ |x| / 2 ^ 53 := by
  unfold toDouble
  split_ifs with h0
  · simp [h0]
  · simp only []
    have hulp : (0 : ℚ) < (2 : ℚ) ^ (binaryExponent x - 52) := by positivity
    have hr := roundHalfEven_near (x / (2 : ℚ) ^ (binaryExponent x - 52))
    have he := binaryExponent_le x h0
    have hsplit : (2 : ℚ) ^ (binaryExponent x - 52) = (2 : ℚ) ^ binaryExponent x / 2 ^ 52 := by
      rw [zpow_sub₀ (by norm_num : (2 : ℚ) ≠ 0)]
      norm_num
    have key : (roundHalfEven (x / (2 : ℚ) ^ (binaryExponent x - 52)) : ℚ) *
        (2 : ℚ) ^ (binaryExponent x - 52) - x =
        ((roundHalfEven (x / (2 : ℚ) ^ (binaryExponent x - 52)) : ℚ) -
          x / (2 : ℚ) ^ (binaryExponent x - 52)) * (2 : ℚ) ^ (binaryExponent x - 52) := by
      field_simp
    rw [key, abs_mul, abs_of_pos hulp]
    calc |(roundHalfEven (x / (2 : ℚ) ^ (binaryExponent x - 52)) : ℚ) -
          x / (2 : ℚ) ^ (binaryExponent x - 52)| * (2 : ℚ) ^ (binaryExponent x - 52)
        ≤ 1 / 2 * (2 : ℚ) ^ (binaryExponent x - 52) :=
          mul_le_mul_of_nonneg_right hr hulp.le
      _ = (2 : ℚ) ^ binaryExponent x / 2 ^ 53 := by rw [hsplit]; ring
      _ ≤ |x| / 2 ^ 53 := div_le_div_of_nonneg_right he (by positivity)

/-- The function `roundHalfEven` leaves an integer as it is. -/
theorem roundHalfEven_intCast (m : Int) : roundHalfEven (m : ℚ) = m := by
  unfold roundHalfEven
  simp

/-- An integer of magnitude below `2 ^ 53` is a double. -/
theorem toDouble_intCast (n : Int) (hn : |n| < 2 ^ 53) : toDouble (n : ℚ) = n := by
  unfold toDouble
  split_ifs with h0
  · exact h0.symm
  · simp only []
    have he := binaryExponent_le (n : ℚ) h0
    have hlt : (2 : ℚ) ^ binaryExponent (n : ℚ) < (2 : ℚ) ^ (53 : Int) := by
      refine lt_of_le_of_lt he ?_
      have : ((|n| : Int) : ℚ) < ((2 ^ 53 : Int) : ℚ) := by exact_mod_cast hn
      rw [Int.cast_abs] at this
      refine lt_of_lt_of_eq this ?_
      norm_num
    have he53 : binaryExponent (n : ℚ) < 53 :=
      (zpow_lt_zpow_iff_right₀ (by norm_num : (1 : ℚ) < 2)).mp hlt
    obtain ⟨k, hk⟩ : ∃ k : Nat, binaryExponent (n : ℚ) - 52 = -(k : Int) :=
      ⟨(52 - binaryExponent (n : ℚ)).toNat, by omega⟩
    rw [hk, zpow_neg, zpow_natCast, div_inv_eq_mul]
    have hcast : (n : ℚ) * 2 ^ k = ((n * 2 ^ k : Int) : ℚ) := by push_cast; ring
    rw [hcast, roundHalfEven_intCast]
    push_cast
    field_simp

/-- The sum of whole ratings between 0 and 5 in doubles is their exact sum, as
long as the bound `init + 5 * length` on the sum stays below `2 ^ 53`: no
partial sum is rounded. -/
theorem doubleSum_exact (rs : List Review) (init : Int)
    (hint : ∀ r ∈ rs, ∃ k : Int, r.rating = (k : ℚ) ∧ 0 ≤ k ∧ k ≤ 5)
    (h0 : 0 ≤ init) (hlen : init + 5 * (rs.length : Int) < 2 ^ 53) :
    doubleSum rs (init : ℚ) = rs.foldl (fun sum review => sum + review.rating) (init : ℚ) := by
  induction rs generalizing init with
  | nil => rfl
  | cons r rs ih =>
    obtain ⟨k, hk, hk0, hk5⟩ := hint r (List.mem_cons_self r rs)
    have hlen' : init + 5 * ((rs.length : Int) + 1) < 2 ^ 53 := by
      simpa using hlen
    have hstep : toDouble ((init : ℚ) + r.rating) = ((init + k : Int) : ℚ) := by
      rw [hk, ← Int.cast_add]
      apply toDouble_intCast
      rw [abs_of_nonneg (by omega)]
      omega
    have hexact : (init : ℚ) + r.rating = ((init + k : Int) : ℚ) := by
      rw [hk, Int.cast_add]
    simp only [doubleSum, List.foldl_cons] at ih ⊢
    rw [hstep, hexact]
    exact ih (init + k) (fun r' hr' => hint r' (List.mem_cons_of_mem r hr')) (by omega)
      (by omega)

/-- The running sum of `updateRoomRating` is the sum of the ratings. -/
theorem foldl_rating_eq_sum (rs : List Review) (init : ℚ) :
    rs.foldl (fun sum review => sum + review.rating) init =
      init + (rs.map Review.rating).sum := by
  induction rs generalizing init with
  | nil => simp
  | cons r rs ih => simp [ih, add_assoc]

/-- After `findByIdAndUpdate`, `findById` returns the changed document, when the
change keeps the id. -/
theorem find_modifyFirst {α : Type} (key : α → Nat) (id : Nat) (f : α → α)
    (hkey : ∀ x, key (f x) = key x) (l : List α) :
    (modifyFirst key id f l).find? (fun y => key y == id) =
      (l.find? (fun y => key y == id)).map f := by
  induction l with
  | nil => rfl
  | cons y ys ih =>
    by_cases hy : key y = id
    · simp [modifyFirst, hy, hkey]
    · have hy' : (key y == id) = false := by simpa using hy
      simp only [modifyFirst, hy, if_false, List.find?_cons, hy']
      exact ih

/-- Writing the same fields twice is writing them once. -/
theorem modifyFirst_idem {α : Type} (key : α → Nat) (id : Nat) (f : α → α)
    (hkey : ∀ x, key (f x) = key x) (hf : ∀ x, f (f x) = f x) (l : List α) :
    modifyFirst key id f (modifyFirst key id f l) = modifyFirst key id f l := by
  induction l with
  | nil => rfl
  | cons y ys ih =>
    by_cases hy : key y = id
    · simp [modifyFirst, hy, hkey, hf]
    · simp [modifyFirst, hy, ih]

/-- The documents before and after `findByIdAndUpdate` are related position by
position, by any relation that holds between a document and itself and between
a document with the given id and its changed version. -/
theorem forall₂_modifyFirst {α : Type} (key : α → Nat) (id : Nat) (f : α → α)
    (R : α → α → Prop) (hrefl : ∀ x, R x x) (hf : ∀ x, key x = id → R x (f x))
    (l : List α) : List.Forall₂ R l (modifyFirst key id f l) := by
  induction l with
  | nil => exact List.Forall₂.nil
  | cons y ys ih =>
    by_cases hy : key y = id
    · simp only [modifyFirst, hy, if_true]
      exact List.Forall₂.cons (hf y hy) (List.forall₂_same.mpr fun x _ => hrefl x)
    · simp only [modifyFirst, hy, if_false]
      exact List.Forall₂.cons (hrefl y) ih

/-- The helper `updateRoomRating` writes `newRating` and the number of reviews to
the room, and touches nothing else. -/
theorem updateRoomRating_eq (s : Store) (roomId : Nat) :
    updateRoomRating s roomId =
      { s with
        rooms :=
          modifyFirst Room.id roomId
            (fun room =>
              { room with rating := newRating s roomId,
                          numReviews := (reviewsOf s roomId).length })
            s.rooms } := by
  unfold updateRoomRating newRating
  by_cases h : (reviewsOf s roomId).length = 0
  · simp [h]
  · simp [h]

/-- The reviews of a store are those it had before `updateRoomRating`. -/
theorem updateRoomRating_reviews (s : Store) (roomId : Nat) :
    (updateRoomRating s roomId).reviews = s.reviews := by
  rw [updateRoomRating_eq]

/-- After `updateRoomRating` the rating of the room matches its reviews. -/
theorem updateRoomRating_matches (s : Store) (roomId : Nat) :
    RatingMatches (updateRoomRating s roomId) roomId := by
  intro room hroom hne
  have hrev : reviewsOf (updateRoomRating s roomId) roomId = reviewsOf s roomId := by
    simp [reviewsOf, updateRoomRating_reviews]
  rw [hrev] at hne ⊢
  have hlen : (reviewsOf s roomId).length ≠ 0 := by
    intro h0
    exact hne (List.length_eq_zero.mp h0)
  have hnew : newRating s roomId = toFixed1 (toDouble (meanRating (reviewsOf s roomId))) := by
    simp [newRating, hlen, meanRating, foldl_rating_eq_sum]
  rw [updateRoomRating_eq] at hroom
  simp only [findRoom] at hroom
  rw [find_modifyFirst Room.id roomId
    (fun room : Room =>
      { room with rating := newRating s roomId, numReviews := (reviewsOf s roomId).length })
    (fun _ => rfl)] at hroom
  cases hold : s.rooms.find? (fun y => y.id == roomId) with
  | none => simp [hold] at hroom
  | some r0 =>
    simp only [hold, Option.map_some', Option.some.injEq] at hroom
    subst hroom
    rw [hnew]
    have h1 := toFixed1_near (toDouble (meanRating (reviewsOf s roomId)))
    have h2 := toDouble_near (meanRating (reviewsOf s roomId))
    have h3 := abs_sub_le (toFixed1 (toDouble (meanRating (reviewsOf s roomId))))
      (toDouble (meanRating (reviewsOf s roomId))) (meanRating (reviewsOf s roomId))
    exact ⟨rfl, toFixed1_tenth _, h1, le_trans h3 (add_le_add h1 h2), rfl⟩

/-- C13, refuted as stated: room R has nineteen reviews whose ratings sum to 82,
and client 7 adds a review with rating 5.  The call succeeds, the room has
twenty reviews whose ratings sum to 87, in doubles too, with the mean
87/20 = 4.35, which rounds to 4.4 at one decimal place; the double nearest to
4.35 lies below it, so `toFixed(1)` gives 4.3, and 4.3 is the rating stored. -/
theorem createReview_tie_stored_below :
    (createReview storeNineteen guestCaller reqReviewFive).2.success = true ∧
      (reviewsOf (createReview storeNineteen guestCaller reqReviewFive).1 1).length = 20 ∧
      doubleSum (reviewsOf (createReview storeNineteen guestCaller reqReviewFive).1 1) 0 =
        87 ∧
      meanRating (reviewsOf (createReview storeNineteen guestCaller reqReviewFive).1 1) =
        87 / 20 ∧
      roundOneDecimal (87 / 20) = 44 / 10 ∧
      toDouble (87 / 20) < 87 / 20 ∧
      (findRoom (createReview storeNineteen guestCaller reqReviewFive).1 1).map Room.rating =
        some (43 / 10) ∧
      (findRoom (createReview storeNineteen guestCaller reqReviewFive).1 1).map
        Room.numReviews = some 20 := by
  decide!

/-- C13 (amended): after a successful `createReview`, `updateReview` or
`deleteReview`, if the room of the review still has a review, the rating of the
room is `toFixed(1)` of the double nearest to the mean of the ratings of all its
reviews: a multiple of one tenth within one twentieth of that double, so within
one twentieth plus the rounding error of the double of the mean; and its
`numReviews` is the number of those reviews. -/
theorem review_ops_rating (s : Store) (caller : Client) :
    (∀ req, (createReview s caller req).2.success = true →
      RatingMatches (createReview s caller req).1 req.roomId) ∧
    (∀ id req review, findReview s id = some review →
      (updateReview s caller id req).2.success = true →
      RatingMatches (updateReview s caller id req).1 review.room) ∧
    (∀ id review, findReview s id = some review →
      (deleteReview s caller id).2.success = true →
      RatingMatches (deleteReview s caller id).1 review.room) := by
  refine ⟨?_, ?_, ?_⟩
  · intro req hok
    unfold createReview at hok ⊢
    cases hroom : findRoom s req.roomId with
    | none => simp [hroom, Response.fail] at hok
    | some room =>
      cases hdup : s.reviews.find? (fun r => r.client == caller.id && r.room == req.roomId) with
      | some d => simp [hroom, hdup, Response.fail] at hok
      | none =>
        cases hval : validateReview req.rating (trimString req.comment) with
        | some msg => simp [hroom, hdup, hval, Response.thrown] at hok
        | none =>
          simp only [hroom, hdup, hval, insertReview]
          exact updateRoomRating_matches _ _
  · intro id req review hfind hok
    unfold updateReview at hok ⊢
    by_cases hown : review.client = caller.id
    · cases hval : validateReview req.rating (trimString req.comment) with
      | some msg => simp [hfind, hown, hval, Response.thrown] at hok
      | none =>
        simp only [hfind, hown, hval, ne_eq, not_true_eq_false, if_false]
        exact updateRoomRating_matches _ _
    · simp [hfind, hown, Response.fail] at hok
  · intro id review hfind hok
    unfold deleteReview at hok ⊢
    by_cases hno : review.client ≠ caller.id ∧ caller.role ≠ "admin"
    · simp [hfind, hno, Response.fail] at hok
    · simp only [hfind, hno, if_false]
      exact updateRoomRating_matches _ _

/-- Witness of C13 (amended), one call of each controller on room R, which has the
ratings 4 and 5: client 7 adds a review with rating 3 and the room is rated 4
with three reviews; client 5 changes the rating 4 to 2 and the room is rated 3.5
with two reviews; client 5 deletes that review and the room is rated 5 with one
review. -/
theorem review_ops_rating_witness :
    (findRoom (createReview storeV guestCaller reqReviewThree).1 1 =
        some { roomRated with rating := 4, numReviews := 3 } ∧
      RatingMatches (createReview storeV guestCaller reqReviewThree).1 reqReviewThree.roomId) ∧
    (findRoom (updateReview storeV ownerCaller 40 reqUpdateTwo).1 1 =
        some { roomRated with rating := 7 / 2, numReviews := 2 } ∧
      RatingMatches (updateReview storeV ownerCaller 40 reqUpdateTwo).1 reviewFour.room) ∧
    (findRoom (deleteReview storeV ownerCaller 40).1 1 =
        some { roomRated with rating := 5, numReviews := 1 } ∧
      RatingMatches (deleteReview storeV ownerCaller 40).1 reviewFour.room) :=
  ⟨⟨by decide!, (review_ops_rating storeV guestCaller).1 reqReviewThree (by decide!)⟩,
    ⟨by decide!, (review_ops_rating storeV ownerCaller).2.1 40 reqUpdateTwo reviewFour
      (by decide!) (by decide!)⟩,
    ⟨by decide!, (review_ops_rating storeV ownerCaller).2.2 40 reviewFour
      (by decide!) (by decide!)⟩⟩

/-- When the document found under an id is the only one that passes a filter,
nothing passes the filter after it is removed. -/
theorem filter_removeFirst_only {α : Type} (key : α → Nat) (id : Nat) (p : α → Bool) (x : α)
    (l : List α) (hfind : l.find? (fun y => key y == id) = some x)
    (honly : l.filter p = [x]) : (removeFirst key id l).filter p = [] := by
  induction l with
  | nil => simp at hfind
  | cons y ys ih =>
    by_cases hy : key y = id
    · have hxy : y = x := by simpa [List.find?_cons, hy] using hfind
      subst hxy
      simp only [removeFirst, hy, if_true]
      by_cases hp : p y = true
      · simpa [List.filter_cons, hp] using honly
      · exfalso
        have hmem : y ∈ (y :: ys).filter p := by rw [honly]; exact List.mem_singleton.mpr rfl
        exact hp (List.mem_filter.mp hmem).2
    · have hy' : (key y == id) = false := by simpa using hy
      rw [List.find?_cons, hy'] at hfind
      have hkx : key x = id := by simpa using List.find?_some hfind
      simp only [removeFirst, hy, if_false]
      by_cases hp : p y = true
      · exfalso
        have hyx : y = x := by
          have := honly
          simp only [List.filter_cons, hp, if_true, List.cons.injEq] at this
          exact this.1
        exact hy (hyx ▸ hkx)
      · have hp' : p y = false := by simpa using hp
        simp only [List.filter_cons, hp', Bool.false_eq_true, if_false] at honly ⊢
        exact ih hfind honly

/-- C14: when a successful `deleteReview` removes the only review of a room of
the store, the room is afterwards stored with rating 0 and `numReviews` 0, and
no review of the room is left. -/
theorem deleteReview_last_resets (s : Store) (caller : Client) (id : Nat) (review : Review)
    (room : Room) (hfind : findReview s id = some review)
    (hok : (deleteReview s caller id).2.success = true)
    (honly : reviewsOf s review.room = [review])
    (hroom : findRoom s review.room = some room) :
    findRoom (deleteReview s caller id).1 review.room =
        some { room with rating := 0, numReviews := 0 } ∧
      reviewsOf (deleteReview s caller id).1 review.room = [] := by
  have hid : review.id = id := by simpa using List.find?_some hfind
  unfold deleteReview at hok ⊢
  by_cases hno : review.client ≠ caller.id ∧ caller.role ≠ "admin"
  · simp [hfind, hno, Response.fail] at hok
  · simp only [hfind, hno, if_false]
    have hleft : reviewsOf { s with reviews := removeFirst Review.id review.id s.reviews }
        review.room = [] := by
      rw [hid]
      exact filter_removeFirst_only Review.id id _ review s.reviews hfind honly
    rw [updateRoomRating_eq]
    constructor
    · simp only [findRoom]
      rw [find_modifyFirst Room.id review.room
        (fun r : Room =>
          { r with
            rating := newRating { s with reviews := removeFirst Review.id review.id s.reviews }
              review.room,
            numReviews :=
              (reviewsOf { s with reviews := removeFirst Review.id review.id s.reviews }
                review.room).length })
        (fun _ => rfl)]
      simp only [findRoom] at hroom
      simp [hroom, newRating, hleft]
    · exact hleft

/-- Witness of C14: the owner deletes the only review of room R, rated 4; the
room is then stored with rating 0 and no review. -/
theorem deleteReview_last_resets_witness :
    findRoom (deleteReview storeOne ownerCaller 40).1 1 =
        some { id := 1, pricePerNight := 100, rating := 0, numReviews := 0 } ∧
      reviewsOf (deleteReview storeOne ownerCaller 40).1 1 = [] :=
  deleteReview_last_resets storeOne ownerCaller 40 reviewFour
    { id := 1, pricePerNight := 100, rating := 4, numReviews := 1 }
    (by decide!) (by decide!) (by decide!) (by decide!)

/-- C15: running `updateRoomRating` twice gives the store that running it once
gives; and one run leaves every collection but the rooms as it was, and every
room as it was except that a room with the given id may differ in `rating` and
`numReviews`. -/
theorem updateRoomRating_idempotent (s : Store) (roomId : Nat) :
    updateRoomRating (updateRoomRating s roomId) roomId = updateRoomRating s roomId ∧
      (updateRoomRating s roomId).services = s.services ∧
      (updateRoomRating s roomId).bookings = s.bookings ∧
      (updateRoomRating s roomId).serviceOrders = s.serviceOrders ∧
      (updateRoomRating s roomId).reviews = s.reviews ∧
      (updateRoomRating s roomId).clients = s.clients ∧
      (updateRoomRating s roomId).nextId = s.nextId ∧
      List.Forall₂
        (fun r r' => r' = r ∨
          (r.id = roomId ∧ r' = { r with rating := r'.rating, numReviews := r'.numReviews }))
        s.rooms (updateRoomRating s roomId).rooms := by
  refine ⟨?_, ?_⟩
  · have hrev : reviewsOf (updateRoomRating s roomId) roomId = reviewsOf s roomId := by
      simp [reviewsOf, updateRoomRating_reviews]
    have hnew : newRating (updateRoomRating s roomId) roomId = newRating s roomId := by
      simp [newRating, hrev]
    rw [updateRoomRating_eq (updateRoomRating s roomId) roomId, hrev, hnew]
    rw [updateRoomRating_eq s roomId]
    simp only
    rw [modifyFirst_idem Room.id roomId
      (fun room : Room =>
        { room with rating := newRating s roomId, numReviews := (reviewsOf s roomId).length })
      (fun _ => rfl) (fun _ => rfl)]
  · rw [updateRoomRating_eq]
    refine ⟨rfl, rfl, rfl, rfl, rfl, rfl, ?_⟩
    exact forall₂_modifyFirst Room.id roomId _ _ (fun r => Or.inl rfl)
      (fun r hr => Or.inr ⟨hr, rfl⟩) s.rooms

/-! ## Theorems: one review per client and room, range of the rating -/

/-- C16: when the room exists and the store holds a review of that room by the
caller, `createReview` answers 400 `You have already reviewed this room` and
returns the store unchanged: the reviews are the same and the room is found with
the same rating and `numReviews`. -/
theorem createReview_duplicate (s : Store) (caller : Client) (req : CreateReviewRequest)
    (room : Room) (existing : Review) (hroom : findRoom s req.roomId = some room)
    (hmem : existing ∈ s.reviews) (hclient : existing.client = caller.id)
    (hsame : existing.room = req.roomId) :
    createReview s caller req =
        (s, Response.fail 400 "You have already reviewed this room") ∧
      (createReview s caller req).1.reviews = s.reviews ∧
      findRoom (createReview s caller req).1 req.roomId = some room := by
  have hrun : createReview s caller req =
      (s, Response.fail 400 "You have already reviewed this room") := by
    cases hdup : s.reviews.find? (fun r => r.client == caller.id && r.room == req.roomId) with
    | some d => simp [createReview, hroom, hdup]
    | none =>
      exfalso
      have := List.find?_eq_none.mp hdup existing hmem
      simp [hclient, hsame] at this
  rw [hrun]
  exact ⟨rfl, rfl, hroom⟩

/-- Witness of C16: client 5 has reviewed room R and asks to review it again. -/
theorem createReview_duplicate_witness :
    createReview storeV ownerCaller reqReviewAgain =
        (storeV, Response.fail 400 "You have already reviewed this room") ∧
      (createReview storeV ownerCaller reqReviewAgain).1.reviews = storeV.reviews ∧
      findRoom (createReview storeV ownerCaller reqReviewAgain).1 reqReviewAgain.roomId =
        some roomRated :=
  createReview_duplicate storeV ownerCaller reqReviewAgain roomRated reviewFour
    (by decide!) (by decide!) (by decide) (by decide)

/-- Removing a document leaves a sublist of the collection. -/
theorem removeFirst_sublist {α : Type} (key : α → Nat) (id : Nat) (l : List α) :
    (removeFirst key id l).Sublist l := by
  induction l with
  | nil => exact List.Sublist.slnil
  | cons y ys ih =>
    by_cases hy : key y = id
    · simp only [removeFirst, hy, if_true]
      exact List.sublist_cons_self y ys
    · simp only [removeFirst, hy, if_false]
      exact ih.cons₂ y

/-- Writing back a document that agrees under `g` with the one found under its
id leaves the image of the collection under `g` as it was. -/
theorem map_replaceFirst {α β : Type} (key : α → Nat) (g : α → β) (d x : α) (l : List α)
    (hfind : l.find? (fun y => key y == key d) = some x) (hg : g d = g x) :
    (replaceFirst key d l).map g = l.map g := by
  induction l with
  | nil => simp at hfind
  | cons y ys ih =>
    by_cases hy : key y = key d
    · have hxy : y = x := by simpa [List.find?_cons, hy] using hfind
      subst hxy
      simp [replaceFirst, hy, hg]
    · have hy' : (key y == key d) = false := by simpa using hy
      rw [List.find?_cons, hy'] at hfind
      simp [replaceFirst, hy, ih hfind]

/-- A call of `updateReview` leaves the id, client and room of every review as
they were. -/
theorem updateReview_keys (s : Store) (caller : Client) (id : Nat) (req : UpdateReviewRequest) :
    (updateReview s caller id req).1.reviews.map (fun r => (r.id, r.client, r.room)) =
      s.reviews.map (fun r => (r.id, r.client, r.room)) := by
  unfold updateReview
  cases hfind : findReview s id with
  | none => rfl
  | some review =>
    have hid : review.id = id := by simpa using List.find?_some hfind
    by_cases hown : review.client = caller.id
    · cases hval : validateReview req.rating (trimString req.comment) with
      | some msg => simp [hown]
      | none =>
        simp only [hown, ne_eq, not_true_eq_false, if_false, updateRoomRating_reviews]
        exact map_replaceFirst Review.id (fun r => (r.id, r.client, r.room)) _ review s.reviews
          (by simpa [findReview, hid] using hfind) (by simp [hown])
    · simp [hown]

/-- One call of a review controller keeps the uniqueness invariant. -/
theorem uniqueReviews_run (s : Store) (call : ReviewCall) (h : UniqueReviews s) :
    UniqueReviews (call.run s) := by
  unfold UniqueReviews at h ⊢
  cases call with
  | create caller req =>
    simp only [ReviewCall.run, createReview]
    cases hroom : findRoom s req.roomId with
    | none => exact h
    | some room =>
      cases hdup : s.reviews.find? (fun r => r.client == caller.id && r.room == req.roomId) with
      | some d => exact h
      | none =>
        cases hval : validateReview req.rating (trimString req.comment) with
        | some msg => exact h
        | none =>
          simp only [insertReview, hdup, updateRoomRating_reviews, List.map_append,
            List.map_cons, List.map_nil]
          rw [List.nodup_append]
          refine ⟨h, List.nodup_singleton _, ?_⟩
          intro a ha hb
          rw [List.mem_singleton] at hb
          subst hb
          obtain ⟨r, hr, hpair⟩ := List.mem_map.mp ha
          have := List.find?_eq_none.mp hdup r hr
          simp only [Prod.mk.injEq] at hpair
          simp [hpair.1, hpair.2] at this
  | update caller id req =>
    simp only [ReviewCall.run]
    have hkeys := updateReview_keys s caller id req
    have hmap : ∀ l : List Review, l.map (fun r => (r.client, r.room)) =
        (l.map (fun r => (r.id, r.client, r.room))).map (fun k => (k.2.1, k.2.2)) := by
      intro l
      simp
    rw [hmap, hkeys, ← hmap]
    exact h
  | delete caller id =>
    simp only [ReviewCall.run, deleteReview]
    cases hfind : findReview s id with
    | none => exact h
    | some review =>
      by_cases hno : review.client ≠ caller.id ∧ caller.role ≠ "admin"
      · simp only []
        rw [if_pos hno]
        exact h
      · simp only []
        rw [if_neg hno]
        simp only [updateRoomRating_reviews]
        exact h.sublist ((removeFirst_sublist Review.id review.id s.reviews).map _)

/-- C17: from a store with at most one review per `(client, room)` pair, every
sequence of `createReview`, `updateReview` and `deleteReview` calls leads to a
store with at most one review per pair; and a call of `updateReview`, on any
store, leaves the id, the client and the room of every review as they were. -/
theorem uniqueReviews_invariant (s : Store) (calls : List ReviewCall) (h : UniqueReviews s) :
    UniqueReviews (runCalls s calls) ∧
      ∀ (t : Store) (caller : Client) (id : Nat) (req : UpdateReviewRequest),
        (updateReview t caller id req).1.reviews.map (fun r => (r.id, r.client, r.room)) =
          t.reviews.map (fun r => (r.id, r.client, r.room)) := by
  refine ⟨?_, updateReview_keys⟩
  unfold runCalls
  induction calls generalizing s with
  | nil => exact h
  | cons call rest ih => exact ih (call.run s) (uniqueReviews_run s call h)

/-- Witness of C17: client 7 reviews room R, client 5 reviews it a second time
and rewrites the first review, client 6 deletes the other one; the pairs stay
distinct. -/
theorem uniqueReviews_invariant_witness :
    UniqueReviews
      (runCalls storeV
        [ReviewCall.create guestCaller reqReviewThree,
          ReviewCall.create ownerCaller reqReviewAgain,
          ReviewCall.update ownerCaller 40 { rating := 1, comment := "poor" },
          ReviewCall.delete { id := 6, role := "user" } 41]) :=
  (uniqueReviews_invariant storeV _ (by unfold UniqueReviews; decide!)).1

/-- The validators of the rating pass exactly on the ratings from 1 to 5. -/
theorem validateReview_none_range (rating : ℚ) (comment : String)
    (h : validateReview rating comment = none) : 1 ≤ rating ∧ rating ≤ 5 := by
  unfold validateReview at h
  split_ifs at h with h1 h2 h3
  exact ⟨not_lt.mp h1, not_lt.mp h2⟩

/-- A rating below 1 or above 5 fails the validators. -/
theorem validateReview_out_of_range (rating : ℚ) (comment : String)
    (h : rating < 1 ∨ 5 < rating) : ∃ msg, validateReview rating comment = some msg := by
  unfold validateReview
  rcases h with h | h
  · exact ⟨_, if_pos h⟩
  · by_cases h1 : rating < 1
    · exact ⟨_, if_pos h1⟩
    · exact ⟨_, by rw [if_neg h1, if_pos h]⟩

/-- C18, as stated, fails: the rating 4.5, which is not an integer, passes the
schema; the review is stored and room R is rated with it. -/
theorem createReview_half_accepted :
    createReview storeV guestCaller reqReviewHalf =
      ({ storeV with
          rooms := [{ roomRated with rating := 9 / 2, numReviews := 3 }],
          reviews := [reviewFour, reviewFive, reviewHalf], nextId := 51 },
        Response.ok 201 reviewHalf) := by
  decide!

/-- C18 (amended): every review accepted by `createReview` or `updateReview` is
stored with a rating between 1 and 5 inclusive, integer or not; a request whose
rating is below 1 or above 5 stores nothing and is answered with an error, which
is the thrown validation error once the checks that come before the write have
passed (the room exists and is not yet reviewed by the caller; the review exists
and belongs to the caller). -/
theorem review_rating_range (s : Store) (caller : Client) :
    (∀ req r, (createReview s caller req).2 = Response.ok 201 r →
      (1 ≤ r.rating ∧ r.rating ≤ 5) ∧ r ∈ (createReview s caller req).1.reviews) ∧
    (∀ id req r, (updateReview s caller id req).2 = Response.ok 200 r →
      (1 ≤ r.rating ∧ r.rating ≤ 5) ∧ findReview (updateReview s caller id req).1 id = some r) ∧
    (∀ req, req.rating < 1 ∨ 5 < req.rating →
      (createReview s caller req).1 = s ∧ (createReview s caller req).2.success = false ∧
      (∀ room, findRoom s req.roomId = some room →
        s.reviews.find? (fun r => r.client == caller.id && r.room == req.roomId) = none →
        ∃ msg, (createReview s caller req).2 = Response.thrown msg)) ∧
    (∀ id req, req.rating < 1 ∨ 5 < req.rating →
      (updateReview s caller id req).1 = s ∧ (updateReview s caller id req).2.success = false ∧
      (∀ review, findReview s id = some review → review.client = caller.id →
        ∃ msg, (updateReview s caller id req).2 = Response.thrown msg)) := by
  refine ⟨?_, ?_, ?_, ?_⟩
  · intro req r hok
    unfold createReview at hok ⊢
    cases hroom : findRoom s req.roomId with
    | none => simp [hroom, Response.fail, Response.ok] at hok
    | some room =>
      cases hdup : s.reviews.find? (fun r => r.client == caller.id && r.room == req.roomId) with
      | some d => simp [hroom, hdup, Response.fail, Response.ok] at hok
      | none =>
        cases hval : validateReview req.rating (trimString req.comment) with
        | some msg => simp [hroom, hdup, hval, Response.thrown, Response.ok] at hok
        | none =>
          simp only [hroom, hdup, hval, insertReview, Response.ok, Response.mk.injEq,
            Option.some.injEq, true_and] at hok
          subst hok
          refine ⟨validateReview_none_range _ _ hval, ?_⟩
          simp [hdup, hval, insertReview, updateRoomRating_reviews]
  · intro id req r hok
    unfold updateReview at hok ⊢
    cases hfind : findReview s id with
    | none => simp [hfind, Response.fail, Response.ok] at hok
    | some review =>
      have hid : review.id = id := by simpa using List.find?_some hfind
      by_cases hown : review.client = caller.id
      · cases hval : validateReview req.rating (trimString req.comment) with
        | some msg => simp [hfind, hown, hval, Response.thrown, Response.ok] at hok
        | none =>
          simp only [hfind, hown, hval, ne_eq, not_true_eq_false, if_false, Response.ok,
            Response.mk.injEq, Option.some.injEq, true_and] at hok
          subst hok
          refine ⟨validateReview_none_range _ _ hval, ?_⟩
          simp only [hown, hval, ne_eq, not_true_eq_false, if_false, findReview,
            updateRoomRating_reviews]
          have := find_replaceFirst Review.id
            { review with rating := req.rating, comment := trimString req.comment } review
            s.reviews (by simpa [findReview, hid] using hfind)
          simpa [hid, hown] using this
      · simp [hfind, hown, Response.fail, Response.ok] at hok
  · intro req hout
    obtain ⟨msg, hmsg⟩ := validateReview_out_of_range req.rating (trimString req.comment) hout
    unfold createReview
    cases hroom : findRoom s req.roomId with
    | none => simp [Response.fail]
    | some room =>
      cases hdup : s.reviews.find? (fun r => r.client == caller.id && r.room == req.roomId) with
      | some d => simp [Response.fail]
      | none => simp [hmsg, Response.thrown]
  · intro id req hout
    obtain ⟨msg, hmsg⟩ := validateReview_out_of_range req.rating (trimString req.comment) hout
    unfold updateReview
    cases hfind : findReview s id with
    | none => simp [Response.fail]
    | some review =>
      by_cases hown : review.client = caller.id
      · simp [hown, hmsg, Response.thrown]
      · simp [hown, Response.fail]

/-- Witness of C18 (amended): the rating 6 is thrown out by the schema and
nothing is stored. -/
theorem review_rating_range_witness :
    (createReview storeV guestCaller reqReviewSix).1 = storeV ∧
      (createReview storeV guestCaller reqReviewSix).2.success = false :=
  ⟨((review_rating_range storeV guestCaller).2.2.1 reqReviewSix (Or.inr (by decide!))).1,
    ((review_rating_range storeV guestCaller).2.2.1 reqReviewSix (Or.inr (by decide!))).2.1⟩

/-! ## Theorems: registration and the role gates -/

/-- C19: a client created by `register` is stored with the role `admin` if no
client existed or the email ends with `@admin.com`, otherwise `staff` if the
email ends with `@staff.com`, otherwise `user`; so the first client of all gets
`admin` even with an `@staff.com` email; and the outcome of `register` is the
same whatever `role` the request body carries. -/
theorem register_role (clientSchema : Client → String → Option String) (s : Store)
    (req : RegisterRequest) :
    (∀ c, (register clientSchema s req).2 = Response.ok 201 c →
      c ∈ (register clientSchema s req).1.clients ∧
      c.role =
        if s.clients = [] ∨ endsWith req.email "@admin.com" = true then "admin"
        else if endsWith req.email "@staff.com" = true then "staff"
        else "user") ∧
    (∀ c, (register clientSchema s req).2 = Response.ok 201 c → s.clients = [] →
      endsWith req.email "@staff.com" = true → c.role = "admin") ∧
    (∀ role, register clientSchema s { req with role := role } = register clientSchema s req) := by
  have hrole : ∀ c, (register clientSchema s req).2 = Response.ok 201 c →
      c ∈ (register clientSchema s req).1.clients ∧
      c.role =
        if s.clients = [] ∨ endsWith req.email "@admin.com" = true then "admin"
        else if endsWith req.email "@staff.com" = true then "staff"
        else "user" := by
    intro c hok
    unfold register at hok ⊢
    cases hdup : s.clients.find? (fun c => c.email == req.email) with
    | some d => simp [hdup, Response.fail, Response.ok] at hok
    | none =>
      simp only [hdup] at hok ⊢
      split at hok
      · simp [Response.thrown, Response.ok] at hok
      · rename_i hval
        simp only [Response.ok, Response.mk.injEq, Option.some.injEq, true_and] at hok
        subst hok
        simp only [hval]
        refine ⟨by simp, ?_⟩
        simp [assignRole, List.length_eq_zero]
  refine ⟨hrole, ?_, fun role => rfl⟩
  intro c hok hfirst _
  rw [(hrole c hok).2]
  simp [hfirst]

/-- Witness of C19: the first client registers with an `@staff.com` email and a
body role `user`, and is stored as `admin`. -/
theorem register_role_witness :
    (register anyClient {} reqStaffMail).2 =
        Response.ok 201
          { id := 0, role := "admin", email := "ann@staff.com", firstName := "Ann",
            lastName := "Lee", phone := "555" } ∧
      (register anyClient {} { reqStaffMail with role := some "staff" } =
        register anyClient {} reqStaffMail) :=
  ⟨by decide, (register_role anyClient {} reqStaffMail).2.2 (some "staff")⟩

/-- C20: `isAdmin` calls `next()` exactly for a present caller with role `admin`,
`isStaff` exactly for role `staff`, `isAdminOrStaff` exactly for role `admin`
or `staff`, and each answers 403 otherwise; so a caller that passes `isAdmin`
passes `isAdminOrStaff`, an admin is answered 403 by `isStaff`, and a missing
caller or a caller with role `user` is answered 403 by all three. -/
theorem role_gates_flat (client : Option Client) :
    (isAdmin client = Gate.next ↔ ∃ c, client = some c ∧ c.role = "admin") ∧
    (isStaff client = Gate.next ↔ ∃ c, client = some c ∧ c.role = "staff") ∧
    (isAdminOrStaff client = Gate.next ↔
      ∃ c, client = some c ∧ (c.role = "admin" ∨ c.role = "staff")) ∧
    (isAdmin client ≠ Gate.next →
      isAdmin client =
        Gate.answered (Response.fail 403 "Access denied: Admin rights required")) ∧
    (isStaff client ≠ Gate.next →
      isStaff client =
        Gate.answered (Response.fail 403 "Access denied: Staff rights required")) ∧
    (isAdminOrStaff client ≠ Gate.next →
      isAdminOrStaff client =
        Gate.answered (Response.fail 403 "Access denied: Admin or staff rights required")) ∧
    (isAdmin client = Gate.next → isAdminOrStaff client = Gate.next) ∧
    (isAdmin client = Gate.next → isStaff client ≠ Gate.next) ∧
    ((client = none ∨ ∃ c, client = some c ∧ c.role = "user") →
      isAdmin client ≠ Gate.next ∧ isStaff client ≠ Gate.next ∧
        isAdminOrStaff client ≠ Gate.next) := by
  cases client with
  | none => simp [isAdmin, isStaff, isAdminOrStaff]
  | some c =>
    by_cases ha : c.role = "admin"
    · simp [isAdmin, isStaff, isAdminOrStaff, ha]
    · by_cases hs : c.role = "staff"
      · simp [isAdmin, isStaff, isAdminOrStaff, hs]
      · simp only [isAdmin, isStaff, isAdminOrStaff, beq_iff_eq, ha, hs, Bool.or_eq_true,
          or_self, Bool.false_eq_true, if_false, Option.some.injEq, exists_eq_left', false_or]
        simp

/-- Witness of C20: the admin caller passes `isAdmin` and `isAdminOrStaff` and is
answered 403 by `isStaff`; a missing caller is answered 403 by `isAdmin`. -/
theorem role_gates_flat_witness :
    isAdminOrStaff (some adminCaller) = Gate.next ∧
      isStaff (some adminCaller) ≠ Gate.next ∧
      isAdmin none =
        Gate.answered (Response.fail 403 "Access denied: Admin rights required") :=
  ⟨(role_gates_flat (some adminCaller)).2.2.2.2.2.2.1 (by decide),
    (role_gates_flat (some adminCaller)).2.2.2.2.2.2.2.1 (by decide),
    (role_gates_flat none).2.2.2.1 (by decide)⟩

/-! ## Theorems: guarded routes, creation with forged fields, missing room -/

/-- C21: for an authenticated caller, that is one whose token verifies and whose
client record exists, the routes of rooms and services let a staff caller
through to `updateRoom` and `updateService` and answer 403 before `createRoom`,
`deleteRoom`, `createService` and `deleteService`; they let an admin through to
all six, and answer a caller with role `user` 403 on all six. -/
theorem routes_by_role (s : Store) (id : Nat) (c : Client) (hfind : findClient s id = some c) :
    (c.role = "staff" →
      enterRoute s (some id) Handler.updateRoom = Gate.next ∧
      enterRoute s (some id) Handler.updateService = Gate.next ∧
      ∀ h, h ≠ Handler.updateRoom → h ≠ Handler.updateService →
        enterRoute s (some id) h =
          Gate.answered (Response.fail 403 "Access denied: Admin rights required")) ∧
    (c.role = "admin" → ∀ h, enterRoute s (some id) h = Gate.next) ∧
    (c.role = "user" → ∀ h, ∃ r, enterRoute s (some id) h = Gate.answered r ∧ r.status = 403) := by
  refine ⟨fun hrole => ⟨?_, ?_, ?_⟩, fun hrole h => ?_, fun hrole h => ?_⟩
  · simp [enterRoute, protect, hfind, routeGate, isAdminOrStaff, hrole]
  · simp [enterRoute, protect, hfind, routeGate, isAdminOrStaff, hrole]
  · intro h h1 h2
    cases h <;> simp_all [enterRoute, protect, routeGate, isAdmin]
  · cases h <;> simp [enterRoute, protect, hfind, routeGate, isAdmin, isAdminOrStaff, hrole]
  · cases h <;>
      simp [enterRoute, protect, hfind, routeGate, isAdmin, isAdminOrStaff, hrole,
        Response.fail]

/-- Witness of C21: the staff member of `storeStaffed` reaches `updateRoom` and is
answered 403 before `deleteRoom`. -/
theorem routes_by_role_witness :
    enterRoute storeStaffed (some 8) Handler.updateRoom = Gate.next ∧
      enterRoute storeStaffed (some 8) Handler.deleteRoom =
        Gate.answered (Response.fail 403 "Access denied: Admin rights required") :=
  ⟨((routes_by_role storeStaffed 8 staffCaller (by decide)).1 (by decide)).1,
    ((routes_by_role storeStaffed 8 staffCaller (by decide)).1 (by decide)).2.2
      Handler.deleteRoom (by decide) (by decide)⟩

/-- A successful `createServiceOrder` went through every branch and appended the
document it answers with. -/
theorem createServiceOrder_ok_inv (s : Store) (caller : Client)
    (req : CreateServiceOrderRequest) (o : ServiceOrder)
    (h : (createServiceOrder s caller req).2 = Response.ok 201 o) :
    ∃ service, findService s req.serviceId = some service ∧
      createServiceOrder s caller req =
        ({ s with serviceOrders := s.serviceOrders ++ [o], nextId := s.nextId + 1 },
          Response.ok 201 o) ∧
      o = { id := s.nextId, service := req.serviceId, client := caller.id,
            appointmentDate := req.appointmentDate, quantity := req.quantity,
            totalPrice := service.price * req.quantity,
            specialRequests := req.specialRequests, status := "pending" } := by
  cases hsvc : findService s req.serviceId with
  | none =>
    rw [createServiceOrder_of_missing s caller req hsvc] at h
    simp [Response.fail, Response.ok] at h
  | some service =>
    rcases lt_or_le req.quantity 1 with hq | hq
    · rw [createServiceOrder_of_bad_quantity s caller req service hsvc hq] at h
      simp [Response.thrown, Response.ok] at h
    · have hq' : ¬ req.quantity < 1 := not_lt.mpr hq
      by_cases hlen : exceedsMaxLength 500 req.specialRequests = true
      · simp [createServiceOrder, hsvc, validateServiceOrder, serviceOrderPaths,
          serviceOrderStatusEnum, hq', hlen, Response.thrown, Response.ok] at h
      · simp only [createServiceOrder, hsvc, validateServiceOrder, serviceOrderPaths,
          serviceOrderStatusEnum, serviceOrderPreSave, hq', hlen] at h ⊢
        simp [Response.ok] at h ⊢
        subst h
        simp

/-- C22: a booking created by `createBooking` and a service order created by
`createServiceOrder` are appended to the store with status `pending`, whatever
status the request body carries. -/
theorem created_status_pending (s : Store) (caller : Client) :
    (∀ (req : CreateBookingRequest) (status : Option String) (b : Booking),
      (createBooking s caller { req with status := status }).2 = Response.ok 201 b →
      b.status = "pending" ∧
        (createBooking s caller { req with status := status }).1.bookings =
          s.bookings ++ [b]) ∧
    (∀ (req : CreateServiceOrderRequest) (status : Option String) (o : ServiceOrder),
      (createServiceOrder s caller { req with status := status }).2 = Response.ok 201 o →
      o.status = "pending" ∧
        (createServiceOrder s caller { req with status := status }).1.serviceOrders =
          s.serviceOrders ++ [o]) := by
  constructor
  · intro req status b hok
    obtain ⟨room, hroom, hc, hg⟩ := createBooking_ok_inv s caller _ b hok
    have hrun := createBooking_of_free s caller { req with status := status } room hroom hc hg
    rw [hrun] at hok ⊢
    simp only [Response.ok, Response.mk.injEq, Option.some.injEq, true_and] at hok
    subst hok
    exact ⟨rfl, rfl⟩
  · intro req status o hok
    obtain ⟨service, _, hrun, ho⟩ := createServiceOrder_ok_inv s caller _ o hok
    rw [hrun]
    exact ⟨by rw [ho], rfl⟩

/-- Witness of C22: the bodies that ask for status `confirmed` get a booking and
a service order with status `pending`. -/
theorem created_status_pending_witness :
    bookingJune.status = "pending" ∧
      (createBooking storeR guestCaller reqJuneForged).1.bookings = storeR.bookings ++ [bookingJune] ∧
      orderThree.status = "pending" ∧
      (createServiceOrder storeS guestCaller reqThreeForged).1.serviceOrders =
        storeS.serviceOrders ++ [orderThree] :=
  ⟨((created_status_pending storeR guestCaller).1 reqJuneForged (some "confirmed") bookingJune
      (by decide)).1,
    ((created_status_pending storeR guestCaller).1 reqJuneForged (some "confirmed") bookingJune
      (by decide)).2,
    ((created_status_pending storeS guestCaller).2 reqThreeForged (some "confirmed") orderThree
      (by decide)).1,
    ((created_status_pending storeS guestCaller).2 reqThreeForged (some "confirmed") orderThree
      (by decide)).2⟩

/-- C23: the fields `totalPrice`, `client` and `status` of the request body are
ignored by `createBooking`: two requests of the same caller on the same store
that differ only in them have the same outcome, store and answer; and the
`totalPrice` of a created booking is `stayPrice` of the nightly rate of the room
and the two dates. -/
theorem createBooking_ignores_forged (s : Store) (caller : Client) (req : CreateBookingRequest) :
    (∀ (totalPrice : Option Int) (client : Option Nat) (status : Option String),
      createBooking s caller
          { req with totalPrice := totalPrice, client := client, status := status } =
        createBooking s caller req) ∧
    (∀ b, (createBooking s caller req).2 = Response.ok 201 b →
      b.client = caller.id ∧
      ∃ room, findRoom s req.roomId = some room ∧
        b.totalPrice = stayPrice room.pricePerNight req.checkInDate req.checkOutDate) := by
  refine ⟨fun _ _ _ => rfl, ?_⟩
  intro b hok
  obtain ⟨room, hroom, hc, hg⟩ := createBooking_ok_inv s caller req b hok
  rw [createBooking_of_free s caller req room hroom hc hg] at hok
  simp only [Response.ok, Response.mk.injEq, Option.some.injEq, true_and] at hok
  subst hok
  exact ⟨rfl, room, hroom, by simp [stayPrice, mul_comm]⟩

/-- Witness of C23: the June request with a forged price, client and status
creates the booking of the plain June request, priced 300 for client 7. -/
theorem createBooking_ignores_forged_witness :
    createBooking storeR guestCaller reqJuneForged = createBooking storeR guestCaller reqJune ∧
      (createBooking storeR guestCaller reqJuneForged).2 = Response.ok 201 bookingJune :=
  ⟨(createBooking_ignores_forged storeR guestCaller reqJune).1 (some 1) (some 5)
      (some "confirmed"),
    by decide⟩

/-- C25: when the room of the request does not exist, `createBooking` answers 404
`Room not found` and returns the store unchanged, whatever the dates, the guests
and the stored bookings are. -/
theorem createBooking_room_missing (s : Store) (caller : Client) (req : CreateBookingRequest)
    (hroom : findRoom s req.roomId = none) :
    createBooking s caller req = (s, Response.fail 404 "Room not found") := by
  simp [createBooking, hroom]

/-- Witness of C25: with booking A stored, a request for the unknown room 99 on
overlapping dates gets the answer 404. -/
theorem createBooking_room_missing_witness :
    createBooking storeA guestCaller reqNoRoom = (storeA, Response.fail 404 "Room not found") :=
  createBooking_room_missing storeA guestCaller reqNoRoom (by decide)

/-! ## Theorems: updating a room, listing bookings, updating a review -/

/-- C24, as stated, fails: room R of `storeV` is rated 4.5 with two reviews; an
`updateRoom` whose body carries the rating 1 and 99 reviews succeeds and the
room is stored with rating 1 and `numReviews` 99, the reviews being the same. -/
theorem updateRoom_authors_rating :
    findRoom storeV 1 = some roomRated ∧
      (updateRoom storeV 1 bodyRating).2 =
        Response.ok 200 { roomRated with rating := 1, numReviews := 99 } ∧
      findRoom (updateRoom storeV 1 bodyRating).1 1 =
        some { roomRated with rating := 1, numReviews := 99 } ∧
      (updateRoom storeV 1 bodyRating).1.reviews = storeV.reviews := by
  decide!

/-- C24 (amended): `updateRoom` writes the body to the room as it is.  After a
successful update the room is stored with every path of the body written; its
rating and `numReviews` are those of the body when the body carries them, and
their values before the update when it does not.  An update that fails leaves
the store unchanged. -/
theorem updateRoom_writes_body (s : Store) (id : Nat) (body : UpdateRoomRequest) (room : Room)
    (hfind : findRoom s id = some room) :
    ((updateRoom s id body).2.success = true →
      findRoom (updateRoom s id body).1 id = some (applyRoomUpdate body room) ∧
      (applyRoomUpdate body room).rating = body.rating.getD room.rating ∧
      (applyRoomUpdate body room).numReviews = body.numReviews.getD room.numReviews) ∧
    ((updateRoom s id body).2.success = false → (updateRoom s id body).1 = s) := by
  unfold updateRoom
  simp only [hfind]
  cases herr : roomUpdateErrors body with
  | cons msg msgs => simp [Response.fail]
  | nil =>
    simp only []
    split_ifs with hdup
    · simp [Response.fail]
    · refine ⟨fun _ => ⟨?_, rfl, rfl⟩, fun h => by simp [Response.ok] at h⟩
      simp only [findRoom] at hfind ⊢
      rw [find_modifyFirst Room.id id (applyRoomUpdate body) (fun _ => rfl), hfind]
      rfl

/-- Witness of C24 (amended): the body with the rating 1 and 99 reviews is written
to room R. -/
theorem updateRoom_writes_body_witness :
    findRoom (updateRoom storeV 1 bodyRating).1 1 = some (applyRoomUpdate bodyRating roomRated) ∧
      (applyRoomUpdate bodyRating roomRated).rating = 1 ∧
      (applyRoomUpdate bodyRating roomRated).numReviews = 99 :=
  (updateRoom_writes_body storeV 1 bodyRating roomRated (by decide!)).1 (by decide!)

/-- C26: for a caller whose role is not admin, every booking in the answer of
`getBookings` is a stored booking of the caller, and the count in the answer is
the number of stored bookings of the caller. -/
theorem getBookings_own_only (s : Store) (caller : Client) (q : PageQuery)
    (page : BookingPage) (hrole : caller.role ≠ "admin")
    (hdata : (getBookings s caller q).data = some page) :
    (∀ b ∈ page.data, b.client = caller.id ∧ b ∈ s.bookings) ∧
      page.count = (s.bookings.filter (fun b => b.client == caller.id)).length ∧
      page.count = s.bookings.countP (fun b => b.client == caller.id) := by
  unfold getBookings at hdata
  simp only [hrole, ne_eq, not_false_eq_true, if_true] at hdata
  by_cases hskip : (parsedOr q.page 1 - 1) * parsedOr q.limit 10 < 0
  · rw [if_pos hskip] at hdata
    simp [Response.thrown] at hdata
  · rw [if_neg hskip] at hdata
    simp only [Response.ok, Option.some.injEq] at hdata
    subst hdata
    refine ⟨?_, rfl, ?_⟩
    · intro b hb
      have hmem := List.mem_of_mem_drop (List.mem_of_mem_take hb)
      have := List.mem_filter.mp hmem
      exact ⟨by simpa using this.2, this.1⟩
    · simp [List.countP_eq_length_filter]

/-- Witness of C26: client 5 lists the bookings of a store that also holds a
booking of client 9 and gets the own two, counted 2. -/
theorem getBookings_own_only_witness :
    (getBookings storeMixed ownerCaller {}).data =
        some { count := 2, data := [bookingA, bookingCancelled] } ∧
      ((∀ b ∈ [bookingA, bookingCancelled], b.client = ownerCaller.id ∧ b ∈ storeMixed.bookings) ∧
        2 = (storeMixed.bookings.filter (fun b => b.client == ownerCaller.id)).length ∧
        2 = storeMixed.bookings.countP (fun b => b.client == ownerCaller.id)) :=
  ⟨by decide,
    getBookings_own_only storeMixed ownerCaller {}
      { count := 2, data := [bookingA, bookingCancelled] } (by decide) (by decide)⟩

/-- C27: `updateReview` called on an existing review by a caller whose id is not
the client of the review, an admin included, answers 401 and returns the store
unchanged, so the review and the rating and `numReviews` of its room are as
before; and a call that succeeds comes from the client of the review. -/
theorem updateReview_owner_only (s : Store) (caller : Client) (id : Nat)
    (req : UpdateReviewRequest) (review : Review) (hfind : findReview s id = some review) :
    (review.client ≠ caller.id →
      updateReview s caller id req =
        (s, Response.fail 401 "Not authorized to update this review")) ∧
    ((updateReview s caller id req).2.success = true → review.client = caller.id) := by
  have hno : review.client ≠ caller.id →
      updateReview s caller id req =
        (s, Response.fail 401 "Not authorized to update this review") := by
    intro hown
    simp [updateReview, hfind, hown]
  refine ⟨hno, fun hok => ?_⟩
  by_contra hown
  rw [hno hown] at hok
  simp [Response.fail] at hok

/-- Witness of C27: the admin, who did not write review 40, cannot update it. -/
theorem updateReview_owner_only_witness :
    updateReview storeV adminCaller 40 { rating := 1, comment := "edited" } =
      (storeV, Response.fail 401 "Not authorized to update this review") :=
  (updateReview_owner_only storeV adminCaller 40 { rating := 1, comment := "edited" }
    reviewFour (by decide!)).1 (by decide)

/-! ## Theorems: frame of a status change, range of the aggregate rating -/

/-- The documents before and after a write-back are related position by
position, by any relation that holds between a document and itself and between
the document found under the id and the one written. -/
theorem forall₂_replaceFirst {α : Type} (key : α → Nat) (d x : α) (R : α → α → Prop)
    (hrefl : ∀ y, R y y) (hR : R x d) (l : List α)
    (hfind : l.find? (fun y => key y == key d) = some x) :
    List.Forall₂ R l (replaceFirst key d l) := by
  induction l with
  | nil => simp at hfind
  | cons y ys ih =>
    by_cases hy : key y = key d
    · have hxy : y = x := by simpa [List.find?_cons, hy] using hfind
      subst hxy
      simp only [replaceFirst, hy, if_true]
      exact List.Forall₂.cons hR (List.forall₂_same.mpr fun z _ => hrefl z)
    · have hy' : (key y == key d) = false := by simpa using hy
      rw [List.find?_cons, hy'] at hfind
      simp only [replaceFirst, hy, if_false]
      exact List.Forall₂.cons (hrefl y) (ih hfind)

/-- C28: a successful `updateBookingStatus` or `updateServiceOrderStatus` returns
the store with one change: in the collection of the record, the record found
under the id now carries the new status, with every other field as before (the
pre-save hook recomputes no price); every other record of the collection and
every other collection are as before. -/
theorem updateStatus_frame (s : Store) (caller : Client) (id : Nat) (status : String) :
    ((updateBookingStatus s caller id status).2.success = true →
      ∃ booking, findBooking s id = some booking ∧
        (updateBookingStatus s caller id status).1 =
          { s with
            bookings := replaceFirst Booking.id { booking with status := status } s.bookings } ∧
        (updateBookingStatus s caller id status).2 =
          Response.ok 200 { booking with status := status } ∧
        List.Forall₂
          (fun b b2 => b2 = b ∨ (b.id = id ∧ b2 = { b with status := status }))
          s.bookings (updateBookingStatus s caller id status).1.bookings) ∧
    ((updateServiceOrderStatus s caller id status).2.success = true →
      ∃ order, findServiceOrder s id = some order ∧
        (updateServiceOrderStatus s caller id status).1 =
          { s with
            serviceOrders :=
              replaceFirst ServiceOrder.id { order with status := status } s.serviceOrders } ∧
        (updateServiceOrderStatus s caller id status).2 =
          Response.ok 200 { order with status := status } ∧
        List.Forall₂
          (fun o o2 => o2 = o ∨ (o.id = id ∧ o2 = { o with status := status }))
          s.serviceOrders (updateServiceOrderStatus s caller id status).1.serviceOrders) := by
  constructor
  · intro hok
    cases hfind : findBooking s id with
    | none => simp [updateBookingStatus, hfind, Response.fail] at hok
    | some booking =>
      have hid : booking.id = id := by simpa using List.find?_some hfind
      simp only [updateBookingStatus, hfind] at hok ⊢
      split_ifs at hok ⊢
      · simp [Response.fail] at hok
      · simp [Response.fail] at hok
      · cases hv : validateBooking { booking with status := status } with
        | some msg => simp [hv, Response.thrown] at hok
        | none =>
          simp only [bookingPreSave]
          refine ⟨booking, rfl, by simp, by simp, ?_⟩
          simp only [List.mem_singleton, String.reduceEq, not_false_eq_true, and_self, if_true]
          exact forall₂_replaceFirst Booking.id { booking with status := status } booking _
            (fun y => Or.inl rfl) (Or.inr ⟨hid, rfl⟩) s.bookings
            (by simpa [findBooking, hid] using hfind)
  · intro hok
    cases hfind : findServiceOrder s id with
    | none => simp [updateServiceOrderStatus, hfind, Response.fail] at hok
    | some order =>
      have hid : order.id = id := by simpa using List.find?_some hfind
      simp only [updateServiceOrderStatus, hfind] at hok ⊢
      split_ifs at hok ⊢
      · simp [Response.fail] at hok
      · simp [Response.fail] at hok
      · cases hv : validateServiceOrder { order with status := status } with
        | some msg => simp [hv, Response.thrown] at hok
        | none =>
          simp only [serviceOrderPreSave]
          refine ⟨order, rfl, by simp, by simp, ?_⟩
          simp only [List.mem_singleton, String.reduceEq, not_false_eq_true, if_true]
          exact forall₂_replaceFirst ServiceOrder.id { order with status := status } order _
            (fun y => Or.inl rfl) (Or.inr ⟨hid, rfl⟩) s.serviceOrders
            (by simpa [findServiceOrder, hid] using hfind)

/-- Witness of C28: the owner cancels booking A; the booking keeps its price,
dates, guests, client and room, and the cancelled booking next to it is
untouched. -/
theorem updateStatus_frame_witness :
    ∃ booking, findBooking storeC 10 = some booking ∧
      (updateBookingStatus storeC ownerCaller 10 "cancelled").1 =
        { storeC with
          bookings :=
            replaceFirst Booking.id { booking with status := "cancelled" } storeC.bookings } ∧
      (updateBookingStatus storeC ownerCaller 10 "cancelled").2 =
        Response.ok 200 { booking with status := "cancelled" } ∧
      List.Forall₂
        (fun b b2 => b2 = b ∨ (b.id = 10 ∧ b2 = { b with status := "cancelled" }))
        storeC.bookings (updateBookingStatus storeC ownerCaller 10 "cancelled").1.bookings :=
  (updateStatus_frame storeC ownerCaller 10 "cancelled").1 (by decide)

/-- The mean of ratings between 1 and 5 lies between 1 and 5. -/
theorem meanRating_range (rs : List Review) (hne : rs ≠ [])
    (hrange : ∀ r ∈ rs, 1 ≤ r.rating ∧ r.rating ≤ 5) :
    1 ≤ meanRating rs ∧ meanRating rs ≤ 5 := by
  have hsum : (rs.length : ℚ) ≤ (rs.map Review.rating).sum ∧
      (rs.map Review.rating).sum ≤ 5 * (rs.length : ℚ) := by
    clear hne
    induction rs with
    | nil => simp
    | cons r rs ih =>
      have hr := hrange r (List.mem_cons_self r rs)
      have ih' := ih (fun x hx => hrange x (List.mem_cons_of_mem r hx))
      simp only [List.map_cons, List.sum_cons, List.length_cons, Nat.cast_add, Nat.cast_one]
      constructor <;> linarith [hr.1, hr.2, ih'.1, ih'.2]
  have hlen : (0 : ℚ) < (rs.length : ℚ) := by
    have : 0 < rs.length := List.length_pos.mpr hne
    exact_mod_cast this
  unfold meanRating
  constructor
  · rw [le_div_iff₀ hlen]
    linarith [hsum.1]
  · rw [div_le_iff₀ hlen]
    linarith [hsum.2]

/-- The value `toFixed1 x` of a number from 0.95 up to, not including, 5.05 lies
between 1 and 5. -/
theorem toFixed1_range (x : ℚ) (h1 : 19 / 20 ≤ x) (h5 : x < 101 / 20) :
    1 ≤ toFixed1 x ∧ toFixed1 x ≤ 5 := by
  have hpos : ¬ x < 0 := by linarith
  have hlo : (10 : Int) ≤ ⌊x * 10 + 1 / 2⌋ := by
    rw [Int.le_floor]
    push_cast
    linarith
  have hhi : ⌊x * 10 + 1 / 2⌋ < (51 : Int) := by
    rw [Int.floor_lt]
    push_cast
    linarith
  have hlo' : (10 : ℚ) ≤ ((⌊x * 10 + 1 / 2⌋ : Int) : ℚ) := by exact_mod_cast hlo
  have hhi' : ((⌊x * 10 + 1 / 2⌋ : Int) : ℚ) ≤ 50 := by
    have : ⌊x * 10 + 1 / 2⌋ ≤ (50 : Int) := by omega
    exact_mod_cast this
  simp only [toFixed1, hpos, if_false]
  constructor
  · rw [le_div_iff₀ (by norm_num)]
    linarith
  · rw [div_le_iff₀ (by norm_num)]
    linarith

/-- C29: if every review of the room has a rating between 1 and 5, then after
`updateRoomRating` the room, if the store holds it, has rating 0 when it has no
review and otherwise a rating between 1 and 5; and its `numReviews` is 0 exactly
when its rating is 0. -/
theorem updateRoomRating_range (s : Store) (roomId : Nat) (room : Room)
    (hrange : ∀ r ∈ reviewsOf s roomId, 1 ≤ r.rating ∧ r.rating ≤ 5)
    (hroom : findRoom (updateRoomRating s roomId) roomId = some room) :
    (reviewsOf s roomId = [] → room.rating = 0) ∧
      (reviewsOf s roomId ≠ [] → 1 ≤ room.rating ∧ room.rating ≤ 5) ∧
      (room.numReviews = 0 ↔ room.rating = 0) := by
  rw [updateRoomRating_eq] at hroom
  simp only [findRoom] at hroom
  rw [find_modifyFirst Room.id roomId
    (fun room : Room =>
      { room with rating := newRating s roomId, numReviews := (reviewsOf s roomId).length })
    (fun _ => rfl)] at hroom
  cases hold : s.rooms.find? (fun y => y.id == roomId) with
  | none => simp [hold] at hroom
  | some r0 =>
    simp only [hold, Option.map_some', Option.some.injEq] at hroom
    subst hroom
    simp only
    by_cases hne : reviewsOf s roomId = []
    · simp [newRating, hne]
    · have hlen : (reviewsOf s roomId).length ≠ 0 := fun h0 => hne (List.length_eq_zero.mp h0)
      have hnew : newRating s roomId =
          toFixed1 (toDouble (meanRating (reviewsOf s roomId))) := by
        simp [newRating, hlen, meanRating, foldl_rating_eq_sum]
      have hmean := meanRating_range (reviewsOf s roomId) hne hrange
      have hnear := toDouble_near (meanRating (reviewsOf s roomId))
      rw [abs_of_nonneg (by linarith [hmean.1] : (0 : ℚ) ≤ meanRating (reviewsOf s roomId)),
        abs_le] at hnear
      have hsmall : meanRating (reviewsOf s roomId) / 2 ^ 53 ≤ 1 / 20 - 1 / 1000 := by
        rw [div_le_iff₀ (by positivity)]
        norm_num
        linarith [hmean.2]
      have hfix := toFixed1_range (toDouble (meanRating (reviewsOf s roomId)))
        (by linarith [hnear.1, hmean.1]) (by linarith [hnear.2, hmean.2])
      rw [hnew]
      refine ⟨fun h => absurd h hne, fun _ => hfix, ?_⟩
      constructor
      · intro h0
        exact absurd h0 hlen
      · intro h0
        linarith [hfix.1]

/-- Witness of C29: room R of `storeV` has the ratings 4 and 5; after
`updateRoomRating` its rating lies between 1 and 5 and its `numReviews` is not 0. -/
theorem updateRoomRating_range_witness :
    (reviewsOf storeV 1 = [] → roomRated.rating = 0) ∧
      (reviewsOf storeV 1 ≠ [] → 1 ≤ roomRated.rating ∧ roomRated.rating ≤ 5) ∧
      (roomRated.numReviews = 0 ↔ roomRated.rating = 0) :=
  updateRoomRating_range storeV 1 roomRated (by decide!) (by decide!)

/-! ## Theorems: available slots of a service -/

/-- The two-clause test of the code holds exactly when the half-open intervals
of the slot and of the order, which have the same length, overlap. -/
theorem slotTaken_iff_overlaps (duration currentTime : Int) (order : ScheduledOrder) :
    slotTaken duration currentTime order = true ↔
      overlapsOrder (duration * 60000) currentTime order := by
  simp only [slotTaken, overlapsOrder, Bool.or_eq_true, Bool.and_eq_true, decide_eq_true_eq]
  constructor
  · rintro (⟨h1, h2⟩ | ⟨h1, h2⟩) <;> constructor <;> omega
  · rintro ⟨h1, h2⟩
    by_cases h : order.date ≤ currentTime
    · exact Or.inl ⟨h, h1⟩
    · exact Or.inr ⟨h2, by omega⟩

/-- The availability flag of the code is the disjointness of the specification. -/
theorem isSlotAvailable_eq (duration currentTime : Int) (orders : List ScheduledOrder) :
    (!orders.any (slotTaken duration currentTime)) =
      decide (∀ o ∈ orders,
        ¬ (currentTime < o.date + duration * 60000 ∧ o.date < currentTime + duration * 60000)) := by
  rw [Bool.eq_iff_iff]
  simp only [Bool.not_eq_true', List.any_eq_false, decide_eq_true_eq]
  constructor
  · intro h o ho hov
    exact h o ho ((slotTaken_iff_overlaps duration currentTime o).mpr hov)
  · intro h o ho htaken
    exact h o ho ((slotTaken_iff_overlaps duration currentTime o).mp htaken)

/-- The loop, started `n` steps of 30 minutes before `endTime`, appends to its
slots the free candidates among the `n` starts it visits, in the order of the
visits. -/
theorem slotsLoop_eq (duration : Int) (orders : List ScheduledOrder) (n : Nat) : ∀ (currentTime : Int) (slots : List Slot),
    slotsLoop duration orders (currentTime + 1800000 * (n : Int)) slots currentTime =
      slots ++
        (((List.range n).map (fun k : Nat => currentTime + 1800000 * (k : Int))).filter
          (fun start => decide (∀ o ∈ orders,
            ¬ (start < o.date + duration * 60000 ∧ o.date < start + duration * 60000)))).map
          (fun start => { start := start, slotEnd := start + duration * 60000 }) := by
  induction n with
  | zero =>
    intro currentTime slots
    rw [slotsLoop]
    simp
  | succ n ih =>
    intro currentTime slots
    have hlt : currentTime < currentTime + 1800000 * ((n + 1 : Nat) : Int) := by
      push_cast
      omega
    have hend : currentTime + 1800000 * ((n + 1 : Nat) : Int) =
        (currentTime + 30 * 60000) + 1800000 * (n : Int) := by
      push_cast
      ring
    have hshift :
        (List.range n).map (fun k : Nat => currentTime + 30 * 60000 + 1800000 * (k : Int)) =
        (List.range n).map
          ((fun k : Nat => currentTime + 1800000 * (k : Int)) ∘ Nat.succ) := by
      apply List.map_congr_left
      intro k _
      simp only [Function.comp, Nat.succ_eq_add_one]
      push_cast
      ring
    rw [slotsLoop, if_pos hlt]
    simp only []
    rw [hend, ih, isSlotAvailable_eq duration currentTime orders, hshift,
      List.range_succ_eq_map, List.map_cons, List.map_map]
    by_cases hfree : ∀ o ∈ orders,
        ¬ (currentTime < o.date + duration * 60000 ∧ o.date < currentTime + duration * 60000)
    · have hdec := decide_eq_true hfree
      simp only [List.filter_cons, Nat.cast_zero, mul_zero, add_zero, hdec, if_true,
        List.map_cons, List.append_assoc, List.singleton_append]
    · have hdec := decide_eq_false hfree
      simp only [List.filter_cons, Nat.cast_zero, mul_zero, add_zero, hdec,
        Bool.false_eq_true, if_false]

/-- C30: for a service of any duration, positive in particular, and any list of
orders, `calculateAvailableSlots` (a total function: the loop ends after 18 steps)
returns the slots of the specification, that is the candidates
`09:00 + 30k` minutes, `k = 0..17`, in ascending order, whose half-open interval
`[start, start + duration)` overlaps the interval `[date, date + duration)` of
no order; the two-clause test of the code is the overlap of these intervals;
the starts of the result ascend; and without orders all 18 candidates are
returned. -/
theorem calculateAvailableSlots_spec (service : Service) (orders : List ScheduledOrder)
    (midnight : Int) :
    calculateAvailableSlots service orders midnight = freeSlots service orders midnight ∧
      (∀ currentTime order, slotTaken service.duration currentTime order = true ↔
        overlapsOrder (service.duration * 60000) currentTime order) ∧
      (calculateAvailableSlots service orders midnight).Pairwise
        (fun a b => a.start < b.start) ∧
      (orders = [] →
        calculateAvailableSlots service orders midnight =
            (candidateStarts midnight).map
              (fun start => { start := start, slotEnd := start + service.duration * 60000 }) ∧
          (calculateAvailableSlots service orders midnight).length = 18) := by
  have hrun : calculateAvailableSlots service orders midnight =
      freeSlots service orders midnight := by
    unfold calculateAvailableSlots freeSlots candidateStarts
    have hend : midnight + 18 * 3600000 = (midnight + 9 * 3600000) + 1800000 * ((18 : Nat) : Int) := by
      push_cast
      ring
    simp only []
    rw [hend, slotsLoop_eq service.duration orders 18 (midnight + 9 * 3600000) []]
    simp
  refine ⟨hrun, fun c o => slotTaken_iff_overlaps service.duration c o, ?_, ?_⟩
  · rw [hrun]
    unfold freeSlots candidateStarts
    rw [List.pairwise_map]
    apply List.Pairwise.filter
    rw [List.pairwise_map]
    refine (List.pairwise_lt_range 18).imp ?_
    intro a b hab
    simp only
    omega
  · intro hnone
    rw [hrun]
    subst hnone
    simp [freeSlots, candidateStarts]

/-- Witness of C30: a service of 60 minutes with one order at 10:00; the slots at
09:30, 10:00 and 10:30 are taken, the slot at 09:00, which ends when the order
starts, and the fourteen slots from 11:00 on are returned (the starts are given
in minutes after midnight); unfolding the loop itself gives these 15 slots. -/
theorem calculateAvailableSlots_spec_witness :
    calculateAvailableSlots serviceSpa [orderAtTen] dayStart =
        freeSlots serviceSpa [orderAtTen] dayStart ∧
      (freeSlots serviceSpa [orderAtTen] dayStart).map
          (fun slot => (slot.start - dayStart) / 60000) =
        [540, 660, 690, 720, 750, 780, 810, 840, 870, 900, 930, 960, 990, 1020, 1050] ∧
      (calculateAvailableSlots serviceSpa [orderAtTen] dayStart).length = 15 :=
  ⟨(calculateAvailableSlots_spec serviceSpa [orderAtTen] dayStart).1, by decide,
    by simp [calculateAvailableSlots, slotsLoop, slotTaken, serviceSpa, orderAtTen, dayStart]⟩

end Resort
